import Mathlib

/-!
EPEVER solar tracer driver: poll scheduler and register decoder.

A shallow embedding of `src/EPEVERSolarTracer.hpp`.

* The object state (`EPEVERSolarTracer`, together with the fields it inherits
  from `SolarTracer`) is an explicit record; every member function is a
  function from the record to the new record (and the return value).
* The Modbus node is the environment: a `Platform` answers every request as a
  function of all the exchanges that went over the bus before it. Each exchange
  is appended to `log`, so the transactions of a call can be read back.
* `uint16_t` and `uint8_t` counters are naturals reduced `% 65536` and `% 256`;
  `int` is the 32-bit two's complement integer of the ESP8266 / ESP32 targets.
* `float` fields hold rationals. For the 32-bit quantities the arithmetic is
  binary32: the conversion of the `int` to `float` and the division by `100.0f`
  both round to the nearest binary32 value, ties to even (`roundFloat32`). A
  16-bit word converts to `float` exactly; its quotient by `100.0f` is kept as
  the exact rational (`scale100`), the rounding of that one division is not
  modelled.
-/

namespace EPEVER

/-! ## Environment: requests, responses, the bus -/

/-- Modelled from the spec: the variable identifiers of `SolarTracer.h`, which is
not among the sources. The three coil-backed identifiers are those the driver
names; every other enumerator is `OTHER`. -/
inductive SolarTracerVariables where
  | LOAD_FORCE_ONOFF
  | LOAD_MANUAL_ONOFF
  | CHARGING_DEVICE_ONOFF
  | OTHER (index : Nat)
  deriving DecidableEq, Repr

/-- One request handed to the Modbus node. `writeMultipleRegisters` carries the
transmit buffer filled by `setTransmitBuffer`. -/
inductive Request where
  | readInputRegisters (address count : Nat)
  | readCoils (address count : Nat)
  | writeSingleCoil (address : Nat) (value : Bool)
  | writeMultipleRegisters (address count : Nat) (transmitBuffer : List Nat)
  deriving DecidableEq, Repr

/-- What the node holds after a transaction: the status code it returned and its
response buffer. -/
structure Response where
  result : Nat
  buffer : Nat → Nat

/-- A finished transaction as recorded in the log: the request and its status. -/
structure Exchange where
  request : Request
  result : Nat
  deriving DecidableEq, Repr

/-- Everything the driver does not define itself: the bus (the slave, the wire and
the Modbus library), answering a request given all earlier exchanges, and the
value the target gives to `x >> 32` on a 32-bit `int`, which C++ leaves open. -/
structure Platform where
  bus : List Exchange → Request → Response
  shr32 : Nat → Nat

/-- Status code `node.ku8MBSuccess` of the Modbus library. -/
def ku8MBSuccess : Nat := 0

/-- The call `node.getResponseBuffer(i)`, a `uint16_t`. -/
def getResponseBuffer (r : Response) (i : Nat) : Nat := r.buffer i % 65536

/-! ## Address constants -/

def MODBUS_ADDRESS_PV_VOLTAGE : Nat := 0x3100
def MODBUS_ADDRESS_BATT_TEMP : Nat := 0x3110
def MODBUS_ADDRESS_BATT_SOC : Nat := 0x311A
def MODBUS_ADDRESS_LOAD_FORCE_ONOFF : Nat := 0x0006
def MODBUS_ADDRESS_LOAD_MANUAL_ONOFF : Nat := 0x0002
def MODBUS_ADDRESS_BATTERY_CHARGE_ONOFF : Nat := 0x0000
def MODBUS_ADDRESS_BATTERY_STATUS : Nat := 0x3200
def MODBUS_ADDRESS_STAT_MAX_PV_VOLTAGE_TODAY : Nat := 0x3300
def MODBUS_ADDRESS_STAT_GENERATED_ENERGY_TODAY : Nat := 0x330C
def MODBUS_ADDRESS_STAT_GENERATED_ENERGY_MONTH : Nat := 0x330E
def MODBUS_ADDRESS_STAT_GENERATED_ENERGY_YEAR : Nat := 0x3310
def MODBUS_ADDRESS_REALTIME_CLOCK : Nat := 0x9013

/-! ## State -/

/-- Modelled from the spec: the telemetry fields of the base class `SolarTracer`
(`SolarTracer.h` is not among the sources), one per field the driver assigns. -/
structure SolarTracer where
  pvvoltage : ℚ
  pvcurrent : ℚ
  pvpower : ℚ
  bvoltage : ℚ
  battChargeCurrent : ℚ
  battChargePower : ℚ
  lcurrent : ℚ
  lpower : ℚ
  btemp : ℚ
  ctemp : ℚ
  bremaining : ℚ
  rtemp : ℚ
  battOverallCurrent : ℚ
  batteryStatusText : String
  chargingStatusText : String
  dischargingStatusText : String
  stats_today_pv_volt_min : ℚ
  stats_today_pv_volt_max : ℚ
  stats_today_bat_volt_min : ℚ
  stats_today_bat_volt_max : ℚ
  stats_today_generated_energy : ℚ
  stats_month_generated_energy : ℚ
  stats_year_generated_energy : ℚ
  stats_total_generated_energy : ℚ
  loadOnOff : Bool
  chargingDeviceOnOff : Bool

/-- The driver object: the inherited telemetry, the protected members
`rs485readSuccess`, `globalUpdateCounter` (`uint16_t`) and
`currentRealtimeUpdateCounter` (`uint8_t`), and the log of the node's exchanges. -/
structure EPEVERSolarTracer extends SolarTracer where
  rs485readSuccess : Bool
  globalUpdateCounter : Nat
  currentRealtimeUpdateCounter : Nat
  log : List Exchange

/-- The members as the class initialisers leave them: both counters 0, nothing
sent yet. The telemetry and `rs485readSuccess` have no initialiser. -/
def isInitial (t : EPEVERSolarTracer) : Prop :=
  t.globalUpdateCounter = 0 ∧ t.currentRealtimeUpdateCounter = 0 ∧ t.log = []

/-- The struct `tm` fields read by `syncRealtimeClock`. -/
structure Tm where
  tm_sec : Int
  tm_min : Int
  tm_hour : Int
  tm_mday : Int
  tm_mon : Int
  tm_year : Int

/-! ## Arithmetic of the decoder -/

/-- A 32-bit pattern read as the `int` it stands for. -/
def asInt32 (n : Nat) : Int :=
  if n % 2 ^ 32 < 2 ^ 31 then (n % 2 ^ 32 : Nat) else ((n % 2 ^ 32 : Nat) : Int) - 2 ^ 32

/-- The expression `low | high << 16` on two `uint16_t` operands: both are
promoted to `int`, the shift wraps at 32 bits, the result is an `int`. -/
def compose32 (low high : Nat) : Int :=
  asInt32 (low ||| ((high <<< 16) % 2 ^ 32))

/-- The expression `w / 100.0f` on a `uint16_t`, as the exact rational: the word
converts to `float` exactly, the rounding of the quotient is not modelled. -/
def scale100 (w : Nat) : ℚ := (w : ℚ) / 100

/-- The integer nearest to `m`, the even one of the two when `m` lies half way
between two integers. -/
def roundHalfEven (m : ℚ) : Int :=
  if m - ⌊m⌋ < 1 / 2 then ⌊m⌋
  else if 1 / 2 < m - ⌊m⌋ then ⌊m⌋ + 1
  else if ⌊m⌋ % 2 = 0 then ⌊m⌋ else ⌊m⌋ + 1

/-- The binary32 (`float`) value nearest to `q`, ties to even: with
`2 ^ e ≤ |q| < 2 ^ (e + 1)` the significand has 24 bits, so `q` is rounded to a
multiple of `2 ^ (e - 23)`; below `2 ^ (-126)` the spacing stays `2 ^ (-149)`.
Overflow to infinity (`|q| ≥ 2 ^ 128`) is not modelled; no value of the driver
comes near it. -/
def roundFloat32 (q : ℚ) : ℚ :=
  if q = 0 then 0
  else (roundHalfEven (q / 2 ^ (max (Int.log 2 |q|) (-126) - 23)) : ℚ) *
    2 ^ (max (Int.log 2 |q|) (-126) - 23)

/-- The expression `x / 100.0f` on an `int`: `x` is converted to `float`, then
divided by the `float` 100 (which is exact), each step rounding. -/
def divBy100f (x : Int) : ℚ := roundFloat32 (roundFloat32 x / 100)

/-- The expression `(low | high << 16) / 100.0f`. -/
def scale100Int (low high : Nat) : ℚ := divBy100f (compose32 low high)

/-- Conversion of an `int` to the `uint16_t` parameter of `setTransmitBuffer`. -/
def toUInt16 (x : Int) : Nat := (x % 65536).toNat

/-! ## The node -/

/-- Append one finished transaction to the log. -/
def record (t : EPEVERSolarTracer) (req : Request) (r : Response) : EPEVERSolarTracer :=
  { t with log := t.log ++ [⟨req, r.result⟩] }

/-! ## Status texts (the three blocks of `fetchAddressStatusVariables`) -/

/-- Text for `batteryStatus`, word 0 of the status block. -/
def decodeBatteryStatus (P : Platform) (batteryStatus : Nat) : String :=
  if batteryStatus ≠ 0 then
    let s := "!"
    let s := match batteryStatus &&& 3 with
      | 1 => s ++ " OVER VOLT"
      | 2 => s ++ " UNDER VOLT"
      | 3 => s ++ " LOW VOLT"
      | 4 => s ++ " FAULT"
      | _ => s
    let s := match (batteryStatus >>> 16) &&& 3 with
      | 1 => s ++ " OVER TEMP"
      | 2 => s ++ " LOW TEMP"
      | _ => s
    if P.shr32 batteryStatus ≠ 0 then s ++ " ABN BATT. RESIST." else s
  else "Normal"

/-- Text for `chargingStatus`, word 1 of the status block; `previous` is the text
held before, which a `switch` without a matching case would leave in place. -/
def decodeChargingStatus (previous : String) (chargingStatus : Nat) : String :=
  if chargingStatus &&& 0xFF0 ≠ 0 then
    if chargingStatus &&& 16 ≠ 0 then "! PV INPUT SHORT"
    else if chargingStatus &&& 32 ≠ 0 then "! ?? D5"
    else if chargingStatus &&& 64 ≠ 0 then "! ?? D6"
    else if chargingStatus &&& 128 ≠ 0 then "! LOAD MOS. SHORT"
    else if chargingStatus &&& 256 ≠ 0 then "! LOAD SHORT"
    else if chargingStatus &&& 512 ≠ 0 then "! LOAD OVER CURR."
    else if chargingStatus &&& 1024 ≠ 0 then "! INPUT OVER CURR."
    else if chargingStatus &&& 2048 ≠ 0 then "! ANTI REV. MOS. SHORT"
    else if chargingStatus &&& 4096 ≠ 0 then "! CHRG./ ANTI REV. MOS. SHORT"
    else if chargingStatus &&& 8192 ≠ 0 then "! CHRG. MOS SHORT"
    else "! ??"
  else
    match (chargingStatus >>> 2) &&& 3 with
    | 0 => "Stanby"
    | 1 => "Float"
    | 2 => "Boost"
    | 3 => "Equalisation"
    | _ => previous

/-- Text for `dischargingStatus`, word 2 of the status block. -/
def decodeDischargingStatus (dischargingStatus : Nat) : String :=
  if dischargingStatus &&& 2 ≠ 0 then
    if dischargingStatus &&& 16 ≠ 0 then "! OUT OVER VOLT."
    else if dischargingStatus &&& 32 ≠ 0 then "! BOOST OVER VOLT"
    else if dischargingStatus &&& 64 ≠ 0 then "! HV SIDE SHORT"
    else if dischargingStatus &&& 128 ≠ 0 then "! INPUT OVER VOLT."
    else if dischargingStatus &&& 256 ≠ 0 then "! OUT VOLT. ABN"
    else if dischargingStatus &&& 512 ≠ 0 then "! UNABLE STOP DISC."
    else if dischargingStatus &&& 1024 ≠ 0 then "! UNABLE DISC."
    else if dischargingStatus &&& 2048 ≠ 0 then "! SHORT"
    else "! ??"
  else
    if dischargingStatus &&& 1 ≠ 0 then "Running" else "Standby"

/-! ## Block reads -/

def AddressRegistry_3100 (P : Platform) (t : EPEVERSolarTracer) : EPEVERSolarTracer :=
  let req := Request.readInputRegisters MODBUS_ADDRESS_PV_VOLTAGE 6
  let r := P.bus t.log req
  let t := record t req r
  if r.result = ku8MBSuccess then
    { t with
      pvvoltage := scale100 (getResponseBuffer r 0)
      pvcurrent := scale100 (getResponseBuffer r 1)
      pvpower := scale100Int (getResponseBuffer r 2) (getResponseBuffer r 3)
      bvoltage := scale100 (getResponseBuffer r 4)
      battChargeCurrent := scale100 (getResponseBuffer r 5) }
  else t

def AddressRegistry_3106 (P : Platform) (t : EPEVERSolarTracer) : EPEVERSolarTracer :=
  let req := Request.readInputRegisters 0x3106 2
  let r := P.bus t.log req
  let t := record t req r
  if r.result = ku8MBSuccess then
    { t with battChargePower := scale100Int (getResponseBuffer r 0) (getResponseBuffer r 1) }
  else t

def AddressRegistry_310D (P : Platform) (t : EPEVERSolarTracer) : EPEVERSolarTracer :=
  let req := Request.readInputRegisters 0x310D 3
  let r := P.bus t.log req
  let t := record t req r
  if r.result = ku8MBSuccess then
    { t with
      lcurrent := scale100 (getResponseBuffer r 0)
      lpower := scale100Int (getResponseBuffer r 1) (getResponseBuffer r 2) }
  else { t with rs485readSuccess := false }

def AddressRegistry_3110 (P : Platform) (t : EPEVERSolarTracer) : EPEVERSolarTracer :=
  let req := Request.readInputRegisters MODBUS_ADDRESS_BATT_TEMP 2
  let r := P.bus t.log req
  let t := record t req r
  if r.result = ku8MBSuccess then
    { t with
      btemp := scale100 (getResponseBuffer r 0)
      ctemp := scale100 (getResponseBuffer r 1) }
  else { t with rs485readSuccess := false }

def AddressRegistry_311A (P : Platform) (t : EPEVERSolarTracer) : EPEVERSolarTracer :=
  let req := Request.readInputRegisters MODBUS_ADDRESS_BATT_SOC 2
  let r := P.bus t.log req
  let t := record t req r
  if r.result = ku8MBSuccess then
    { t with
      bremaining := (getResponseBuffer r 0 : ℚ) / 1
      rtemp := scale100 (getResponseBuffer r 1) }
  else { t with rs485readSuccess := false }

def AddressRegistry_331B (P : Platform) (t : EPEVERSolarTracer) : EPEVERSolarTracer :=
  let req := Request.readInputRegisters 0x331B 2
  let r := P.bus t.log req
  let t := record t req r
  if r.result = ku8MBSuccess then
    { t with battOverallCurrent := scale100Int (getResponseBuffer r 0) (getResponseBuffer r 1) }
  else { t with rs485readSuccess := false }

def fetchAddressStatusVariables (P : Platform) (t : EPEVERSolarTracer) : EPEVERSolarTracer :=
  let req := Request.readInputRegisters MODBUS_ADDRESS_BATTERY_STATUS 3
  let r := P.bus t.log req
  let t := record t req r
  if r.result = ku8MBSuccess then
    { t with
      batteryStatusText := decodeBatteryStatus P (getResponseBuffer r 0)
      chargingStatusText := decodeChargingStatus t.chargingStatusText (getResponseBuffer r 1)
      dischargingStatusText := decodeDischargingStatus (getResponseBuffer r 2) }
  else { t with rs485readSuccess := false }

def updateStats (P : Platform) (t : EPEVERSolarTracer) : EPEVERSolarTracer :=
  let req := Request.readInputRegisters MODBUS_ADDRESS_STAT_MAX_PV_VOLTAGE_TODAY 29
  let r := P.bus t.log req
  let t := record t req r
  if r.result = ku8MBSuccess then
    { t with
      stats_today_pv_volt_min := scale100 (getResponseBuffer r 0)
      stats_today_pv_volt_max := scale100 (getResponseBuffer r 1)
      stats_today_bat_volt_min := scale100 (getResponseBuffer r 2)
      stats_today_bat_volt_max := scale100 (getResponseBuffer r 3)
      stats_today_generated_energy := scale100Int (getResponseBuffer r 12) (getResponseBuffer r 13)
      stats_month_generated_energy := scale100Int (getResponseBuffer r 14) (getResponseBuffer r 15)
      stats_year_generated_energy := scale100Int (getResponseBuffer r 16) (getResponseBuffer r 17)
      stats_total_generated_energy := scale100Int (getResponseBuffer r 18) (getResponseBuffer r 19) }
  else t

/-! ## Coils and the clock -/

def readControllerSingleCoil (P : Platform) (t : EPEVERSolarTracer) (address : Nat) :
    Bool × EPEVERSolarTracer :=
  let req := Request.readCoils address 1
  let r := P.bus t.log req
  let t := record t req r
  let t := { t with rs485readSuccess := decide (r.result = ku8MBSuccess) }
  if t.rs485readSuccess then (decide (getResponseBuffer r 0 > 0), t) else (false, t)

def writeControllerSingleCoil (P : Platform) (t : EPEVERSolarTracer) (address : Nat)
    (value : Bool) : Bool × EPEVERSolarTracer :=
  let req := Request.writeSingleCoil address value
  let r := P.bus t.log req
  let t := record t req r
  if r.result = ku8MBSuccess then (true, t) else (false, t)

def syncRealtimeClock (P : Platform) (t : EPEVERSolarTracer) (ti : Tm) :
    Bool × EPEVERSolarTracer :=
  let w0 := toUInt16 (ti.tm_min * 2 ^ 8 + ti.tm_sec)
  let w1 := toUInt16 (ti.tm_mday * 2 ^ 8 + ti.tm_hour)
  let w2 := toUInt16 ((ti.tm_year + 1900 - 2000) * 2 ^ 8 + ti.tm_mon + 1)
  let req := Request.writeMultipleRegisters MODBUS_ADDRESS_REALTIME_CLOCK 3 [w0, w1, w2]
  let r := P.bus t.log req
  let t := record t req r
  if r.result = ku8MBSuccess then (true, t) else (false, t)

def fetchValue (P : Platform) (t : EPEVERSolarTracer) (var : SolarTracerVariables) :
    Bool × EPEVERSolarTracer :=
  match var with
  | .LOAD_FORCE_ONOFF =>
    let c := readControllerSingleCoil P t MODBUS_ADDRESS_LOAD_FORCE_ONOFF
    let t := c.2
    (t.rs485readSuccess, t)
  | .LOAD_MANUAL_ONOFF =>
    let c := readControllerSingleCoil P t MODBUS_ADDRESS_LOAD_MANUAL_ONOFF
    let t := c.2
    let t := if t.rs485readSuccess then { t with loadOnOff := c.1 } else t
    (t.rs485readSuccess, t)
  | .CHARGING_DEVICE_ONOFF =>
    let c := readControllerSingleCoil P t MODBUS_ADDRESS_BATTERY_CHARGE_ONOFF
    let t := c.2
    let t := if t.rs485readSuccess then { t with chargingDeviceOnOff := c.1 } else t
    (t.rs485readSuccess, t)
  | .OTHER _ => (false, t)

def writeBoolValue (P : Platform) (t : EPEVERSolarTracer) (var : SolarTracerVariables)
    (value : Bool) : Bool × EPEVERSolarTracer :=
  match var with
  | .LOAD_FORCE_ONOFF => writeControllerSingleCoil P t MODBUS_ADDRESS_LOAD_FORCE_ONOFF value
  | .LOAD_MANUAL_ONOFF => writeControllerSingleCoil P t MODBUS_ADDRESS_LOAD_MANUAL_ONOFF value
  | .CHARGING_DEVICE_ONOFF =>
    writeControllerSingleCoil P t MODBUS_ADDRESS_BATTERY_CHARGE_ONOFF value
  | .OTHER _ => (false, t)

/-! ## The scheduler -/

def fetchAllValues (P : Platform) (t : EPEVERSolarTracer) : EPEVERSolarTracer :=
  let t := updateStats P t
  let t := AddressRegistry_3100 P t
  let t := AddressRegistry_3106 P t
  let t := AddressRegistry_310D P t
  let t := AddressRegistry_3110 P t
  let t := AddressRegistry_311A P t
  let t := AddressRegistry_331B P t
  let t := (fetchValue P t .LOAD_MANUAL_ONOFF).2
  fetchAddressStatusVariables P t

/-- The inner `switch (currentRealtimeUpdateCounter)` of `updateRun`. -/
def realtimeDispatch (P : Platform) (t : EPEVERSolarTracer) : EPEVERSolarTracer :=
  match t.currentRealtimeUpdateCounter with
  | 0 =>
    let t := { t with globalUpdateCounter := (t.globalUpdateCounter + 1) % 65536 }
    let t := { t with currentRealtimeUpdateCounter := 6 }
    AddressRegistry_3100 P t
  | 1 => AddressRegistry_3106 P t
  | 2 => AddressRegistry_310D P t
  | 3 =>
    let t := AddressRegistry_3110 P t
    AddressRegistry_311A P t
  | 4 => AddressRegistry_331B P t
  | 5 =>
    let t := (fetchValue P t .LOAD_MANUAL_ONOFF).2
    let t := (fetchValue P t .LOAD_MANUAL_ONOFF).2
    fetchAddressStatusVariables P t
  | _ => t

def updateRun (P : Platform) (t : EPEVERSolarTracer) : Bool × EPEVERSolarTracer :=
  let t :=
    if t.globalUpdateCounter = 360 then
      let t := updateStats P t
      { t with globalUpdateCounter := 0 }
    else
      let t := realtimeDispatch P t
      { t with currentRealtimeUpdateCounter := (t.currentRealtimeUpdateCounter + 255) % 256 }
  (t.rs485readSuccess, t)

/-! ## Runs -/

/-- The driver after `n` calls of `updateRun`. -/
def runTicks (P : Platform) : Nat → EPEVERSolarTracer → EPEVERSolarTracer
  | 0, t => t
  | n + 1, t => runTicks P n (updateRun P t).2

/-- The requests a call issued, read off the log after it: `before` is the driver
the call started from, `after` the one it returned. -/
def issued (before after : EPEVERSolarTracer) : List Request :=
  (after.log.drop before.log.length).map Exchange.request

/-- The exchanges of a call, with their status codes. -/
def exchanges (before after : EPEVERSolarTracer) : List Exchange :=
  after.log.drop before.log.length

/-- States the public interface can reach: from an initial driver, any sequence of
`updateRun`, `fetchAllValues`, `fetchValue`, `writeBoolValue` and
`syncRealtimeClock`, each against any bus. -/
inductive Reachable : EPEVERSolarTracer → Prop where
  | init (t : EPEVERSolarTracer) (h : isInitial t) : Reachable t
  | updateRun (P : Platform) (t : EPEVERSolarTracer) (h : Reachable t) :
      Reachable (updateRun P t).2
  | fetchAllValues (P : Platform) (t : EPEVERSolarTracer) (h : Reachable t) :
      Reachable (fetchAllValues P t)
  | fetchValue (P : Platform) (t : EPEVERSolarTracer) (v : SolarTracerVariables)
      (h : Reachable t) : Reachable (fetchValue P t v).2
  | writeBoolValue (P : Platform) (t : EPEVERSolarTracer) (v : SolarTracerVariables)
      (b : Bool) (h : Reachable t) : Reachable (writeBoolValue P t v b).2
  | syncRealtimeClock (P : Platform) (t : EPEVERSolarTracer) (ti : Tm) (h : Reachable t) :
      Reachable (syncRealtimeClock P t ti).2

/-! ## Concrete drivers and buses -/

/-- A driver right after construction, with every telemetry field cleared. -/
def bootTracer : EPEVERSolarTracer where
  pvvoltage := 0
  pvcurrent := 0
  pvpower := 0
  bvoltage := 0
  battChargeCurrent := 0
  battChargePower := 0
  lcurrent := 0
  lpower := 0
  btemp := 0
  ctemp := 0
  bremaining := 0
  rtemp := 0
  battOverallCurrent := 0
  batteryStatusText := ""
  chargingStatusText := ""
  dischargingStatusText := ""
  stats_today_pv_volt_min := 0
  stats_today_pv_volt_max := 0
  stats_today_bat_volt_min := 0
  stats_today_bat_volt_max := 0
  stats_today_generated_energy := 0
  stats_month_generated_energy := 0
  stats_year_generated_energy := 0
  stats_total_generated_energy := 0
  loadOnOff := false
  chargingDeviceOnOff := false
  rs485readSuccess := false
  globalUpdateCounter := 0
  currentRealtimeUpdateCounter := 0
  log := []

/-- A bus that answers every request with the same status and buffer. -/
def constBus (result : Nat) (buffer : Nat → Nat) : Platform where
  bus := fun _ _ => ⟨result, buffer⟩
  shr32 := fun _ => 0

/-- A bus on which every transaction succeeds and every word read is `w`. -/
def goodBus (w : Nat) : Platform := constBus ku8MBSuccess (fun _ => w)

/-- A bus on which every transaction fails (status `0xE2`, response timed out). -/
def deadBus : Platform := constBus 0xE2 (fun _ => 0)

/-- A bus that succeeds and returns word `i` of every block as `i`-th entry of
`words` (0 past the end). -/
def listBus (words : List Nat) : Platform := constBus ku8MBSuccess (fun i => words.getD i 0)

/-- The response of the bus to `req` when asked of driver `t`. -/
def reply (P : Platform) (t : EPEVERSolarTracer) (req : Request) : Response :=
  P.bus t.log req

/-- The bus answers `req`, asked of driver `t`, with success, and words `i` and `j`
of its response are `low` and `high`. -/
def returnsWords (P : Platform) (t : EPEVERSolarTracer) (req : Request)
    (i j low high : Nat) : Prop :=
  (P.bus t.log req).result = ku8MBSuccess ∧
    getResponseBuffer (P.bus t.log req) i = low ∧
    getResponseBuffer (P.bus t.log req) j = high

/-! ## Reference values of the specification -/

/-- The two poll counters after one tick, from their values before it:
`(globalUpdateCounter, currentRealtimeUpdateCounter)`. -/
def counterStep (s : Nat × Nat) : Nat × Nat :=
  if s.1 = 360 then (0, s.2)
  else if s.2 = 0 then ((s.1 + 1) % 65536, 5)
  else (s.1, (s.2 + 255) % 256)

/-- The signed reading of two 16-bit words as one 32-bit quantity: the unsigned
composition when `high < 0x8000`, and `2 ^ 32` less when `high ≥ 0x8000`. -/
def signedComposition (low high : Nat) : Int :=
  if high < 32768 then (low : Int) + 65536 * high else (low : Int) + 65536 * high - 4294967296

/-- The requests of the dispatch group that `currentRealtimeUpdateCounter = c`
selects in `updateRun`. -/
def dispatchGroup (c : Nat) : List Request :=
  match c with
  | 0 => [.readInputRegisters 0x3100 6]
  | 1 => [.readInputRegisters 0x3106 2]
  | 2 => [.readInputRegisters 0x310D 3]
  | 3 => [.readInputRegisters 0x3110 2, .readInputRegisters 0x311A 2]
  | 4 => [.readInputRegisters 0x331B 2]
  | 5 => [.readCoils 0x0002 1, .readCoils 0x0002 1, .readInputRegisters 0x3200 3]
  | _ => []

/-- The requests of one tick, from the counters before it
(`(globalUpdateCounter, currentRealtimeUpdateCounter)`): the statistics block when
the first is 360, else the dispatch group selected by the second. -/
def tickRequests (s : Nat × Nat) : List Request :=
  if s.1 = 360 then [.readInputRegisters 0x3300 29] else dispatchGroup s.2

/-- The realtime input-register blocks of the register map. -/
def realtimeBlocks : List Request :=
  [.readInputRegisters 0x3100 6, .readInputRegisters 0x3106 2, .readInputRegisters 0x310D 3,
   .readInputRegisters 0x3110 2, .readInputRegisters 0x311A 2, .readInputRegisters 0x331B 2,
   .readInputRegisters 0x3200 3]

/-- The counter `currentRealtimeUpdateCounter` after a tick that is not a statistics
refresh, from its value before. -/
def realtimeStep (c : Nat) : Nat := if c = 0 then 5 else (c + 255) % 256

/-- The requests of `n` consecutive ticks none of which is a statistics refresh,
from `currentRealtimeUpdateCounter` before the first. -/
def realtimeSchedule : Nat → Nat → List Request
  | 0, _ => []
  | n + 1, c => dispatchGroup c ++ realtimeSchedule n (realtimeStep c)

/-- The tick started from `t` is a statistics refresh: it reads block 0x3300. -/
def isStatsRefresh (P : Platform) (t : EPEVERSolarTracer) : Prop :=
  Request.readInputRegisters 0x3300 29 ∈ issued t (updateRun P t).2

/-- What holds of the counters `(globalUpdateCounter, currentRealtimeUpdateCounter)`
in every state the interface can reach. -/
def counterInv (s : Nat × Nat) : Prop :=
  s.1 ≤ 360 ∧ s.2 ≤ 5 ∧ (s.1 = 360 → s.2 = 5)

/-- Position of the counters in the cycle of 2161 ticks that starts at `(0, 0)`. -/
def phase (s : Nat × Nat) : Nat :=
  if s.1 = 0 then (if s.2 = 0 then 0 else 2161 - s.2) else 6 * s.1 - s.2

/-- Every transaction issued between `before` and `after` failed. -/
def allFailed (before after : EPEVERSolarTracer) : Prop :=
  ∀ e ∈ exchanges before after, e.result ≠ ku8MBSuccess

/-- Every transaction issued between `before` and `after` succeeded. -/
def allSucceeded (before after : EPEVERSolarTracer) : Prop :=
  ∀ e ∈ exchanges before after, e.result = ku8MBSuccess

/-- The operation `f` only appends to the log, and leaves the telemetry as it was
whenever all the transactions it appended failed. -/
def FailSafe (f : EPEVERSolarTracer → EPEVERSolarTracer) : Prop :=
  ∀ t, ∃ xs, (f t).log = t.log ++ xs ∧
    ((∀ e ∈ xs, e.result ≠ ku8MBSuccess) → (f t).toSolarTracer = t.toSolarTracer)

/-- The driver of `bootTracer` with the flag `rs485readSuccess` set. -/
def flaggedTracer : EPEVERSolarTracer := { bootTracer with rs485readSuccess := true }

/-- The driver of `bootTracer` about to refresh the statistics. -/
def refreshTracer : EPEVERSolarTracer :=
  { bootTracer with globalUpdateCounter := 360, currentRealtimeUpdateCounter := 5 }

/-! ## A simulated slave, and references for the coil and status claims -/

/-- The state of coil `a` on a simulated slave after the exchanges of `log`: the
value of the last successful write to `a`, off when there was none. -/
def coilState (log : List Exchange) (a : Nat) : Bool :=
  log.foldl (fun acc e =>
    match e.request with
    | .writeSingleCoil b v => if b = a ∧ e.result = ku8MBSuccess then v else acc
    | _ => acc) false

/-- A simulated bus on which every transaction succeeds, and which stores coil
writes and echoes them on coil reads (bit 0 of response word 0). -/
def echoBus : Platform where
  bus := fun log req =>
    match req with
    | .readCoils a _ =>
      ⟨ku8MBSuccess, fun i => if i = 0 then (if coilState log a then 1 else 0) else 0⟩
    | _ => ⟨ku8MBSuccess, fun _ => 0⟩
  shr32 := fun _ => 0

/-- The driver of `bootTracer` after its first tick on a dead bus: counters (1, 5),
the state in which the next tick is the load-manual coil + status tick. -/
def coilTickTracer : EPEVERSolarTracer := (updateRun deadBus bootTracer).2

/-- The text `s` begins with `pre`. -/
def beginsWith (s pre : String) : Prop := pre.toList <+: s.toList

/-- The text `s` contains `sub`. -/
def containsText (s sub : String) : Prop := sub.toList <:+: s.toList

/-- The fault texts of the discharging status word, by bit number. -/
def dischargingFaultTexts : List (Nat × String) :=
  [(4, "! OUT OVER VOLT."), (5, "! BOOST OVER VOLT"), (6, "! HV SIDE SHORT"),
   (7, "! INPUT OVER VOLT."), (8, "! OUT VOLT. ABN"), (9, "! UNABLE STOP DISC."),
   (10, "! UNABLE DISC."), (11, "! SHORT")]

/-- The discharging status text as the specification words it: with bit 1 clear,
"Running" or "Standby" by bit 0; with bit 1 set, the fault text of the
lowest-numbered set bit among bits 4 to 11, and the generic fault text when none
of them is set. -/
def dischargingReference (d : Nat) : String :=
  if d.testBit 1 then
    match dischargingFaultTexts.find? (fun p => d.testBit p.1) with
    | some p => p.2
    | none => "! ??"
  else if d.testBit 0 then "Running" else "Standby"

/-- The fault texts of the charging status word for bits 4 to 11, by bit number. -/
def chargingFaultTexts : List (Nat × String) :=
  [(4, "! PV INPUT SHORT"), (5, "! ?? D5"), (6, "! ?? D6"), (7, "! LOAD MOS. SHORT"),
   (8, "! LOAD SHORT"), (9, "! LOAD OVER CURR."), (10, "! INPUT OVER CURR."),
   (11, "! ANTI REV. MOS. SHORT")]

/-- The requests of `fetchAllValues`, in the order of the register map walk. -/
def fetchAllRequests : List Request :=
  [.readInputRegisters 0x3300 29, .readInputRegisters 0x3100 6, .readInputRegisters 0x3106 2,
   .readInputRegisters 0x310D 3, .readInputRegisters 0x3110 2, .readInputRegisters 0x311A 2,
   .readInputRegisters 0x331B 2, .readCoils 0x0002 1, .readInputRegisters 0x3200 3]

/-- A clock time: 2024-03-17 21:45:30 (`tm_year` counts from 1900, `tm_mon` from 0). -/
def sampleTime : Tm where
  tm_sec := 30
  tm_min := 45
  tm_hour := 21
  tm_mday := 17
  tm_mon := 2
  tm_year := 124

/-! ## References for the charging and battery texts, and for the block bounds -/

/-- The charging mode text for the value 0, 1, 2, 3 of bits 3..2 of the word. -/
def chargingModeText (w : Nat) : String :=
  match w.testBit 3, w.testBit 2 with
  | false, false => "Stanby"
  | false, true => "Float"
  | true, false => "Boost"
  | true, true => "Equalisation"

/-- The charging status text in terms of bits 2 to 11 of the word: the fault text
of the lowest-numbered set bit among bits 4 to 11 when there is one, else the mode
text of bits 3..2. -/
def chargingReference (w : Nat) : String :=
  match chargingFaultTexts.find? (fun p => w.testBit p.1) with
  | some p => p.2
  | none => chargingModeText w

/-- The battery status text of a non-zero word before the resistance suffix: "!"
followed by the voltage text of the low two bits. -/
def batteryVoltText (w : Nat) : String :=
  match w % 4 with
  | 1 => "! OVER VOLT"
  | 2 => "! UNDER VOLT"
  | 3 => "! LOW VOLT"
  | _ => "!"

/-- The texts `batteryVoltText` can take. -/
def batteryFaultTexts : List String := ["!", "! OVER VOLT", "! UNDER VOLT", "! LOW VOLT"]

/-- The suffix appended when `batteryStatus >> 32` is non-zero. -/
def resistanceSuffix : String := " ABN BATT. RESIST."

/-- Two platforms answer `req`, asked of driver `t`, with the same status and the
same response words at every index below `n`, and give `x >> 32` the same value. -/
def agreeBelow (P Q : Platform) (t : EPEVERSolarTracer) (req : Request) (n : Nat) : Prop :=
  P.shr32 = Q.shr32 ∧ (P.bus t.log req).result = (Q.bus t.log req).result ∧
    ∀ i, i < n → getResponseBuffer (P.bus t.log req) i = getResponseBuffer (Q.bus t.log req) i

/-- The driver of `bootTracer` at counters (0, 5) with the flag set: its next tick
is the load-manual coil + status tick. -/
def flaggedCoilTracer : EPEVERSolarTracer :=
  { bootTracer with rs485readSuccess := true, currentRealtimeUpdateCounter := 5 }

/-- A bus on which the first transaction after `log` fails (status `0xE2`) and all
others succeed with every word 0. -/
def firstFailsBus (log : List Exchange) : Platform where
  bus := fun l _ => if l = log then ⟨0xE2, fun _ => 0⟩ else ⟨ku8MBSuccess, fun _ => 0⟩
  shr32 := fun _ => 0

end EPEVER

namespace EPEVER

/-! ## Arithmetic lemmas -/

theorem getResponseBuffer_lt (r : Response) (i : Nat) : getResponseBuffer r i < 65536 := by
  unfold getResponseBuffer
  omega

theorem lor_shift_eq_add (low high : Nat) (hl : low < 65536) :
    low ||| (high <<< 16) = low + 65536 * high := by
  have h := Nat.mul_add_lt_is_or (i := 16) (b := low) (by simpa using hl) high
  rw [Nat.shiftLeft_eq, Nat.lor_comm, Nat.mul_comm high, ← h]
  norm_num
  omega

theorem compose32_eq (low high : Nat) (hl : low < 65536) (hh : high < 65536) :
    compose32 low high = signedComposition low high := by
  unfold compose32 signedComposition asInt32
  have h1 : (high <<< 16) % 2 ^ 32 = high <<< 16 := by
    rw [Nat.shiftLeft_eq]
    apply Nat.mod_eq_of_lt
    norm_num
    omega
  rw [h1, lor_shift_eq_add low high hl]
  have h2 : (low + 65536 * high) % 2 ^ 32 = low + 65536 * high := by
    apply Nat.mod_eq_of_lt
    norm_num
    omega
  rw [h2]
  by_cases h : high < 32768
  · have : low + 65536 * high < 2 ^ 31 := by norm_num; omega
    simp only [this, h, if_true]
    push_cast
    ring
  · have : ¬ low + 65536 * high < 2 ^ 31 := by norm_num; omega
    simp only [this, h, if_false]
    push_cast
    ring

theorem roundHalfEven_sub_le (m : ℚ) : |(roundHalfEven m : ℚ) - m| ≤ 1 / 2 := by
  unfold roundHalfEven
  have h1 := Int.floor_le m
  have h2 := Int.lt_floor_add_one m
  split_ifs with a b c
  · rw [abs_le]; constructor <;> linarith
  · rw [abs_le]; push_cast; constructor <;> linarith
  · rw [abs_le]; constructor <;> linarith
  · rw [abs_le]; push_cast; constructor <;> linarith

theorem roundHalfEven_eq (m : ℚ) (n : Int) (h : |m - n| < 1 / 2) : roundHalfEven m = n := by
  rw [abs_lt] at h
  obtain ⟨h1, h2⟩ := h
  unfold roundHalfEven
  by_cases hm : (n : ℚ) ≤ m
  · have hf : ⌊m⌋ = n := by
      rw [Int.floor_eq_iff]
      constructor <;> linarith
    rw [hf, if_pos (by linarith)]
  · push_neg at hm
    have hf : ⌊m⌋ = n - 1 := by
      rw [Int.floor_eq_iff]
      push_cast
      constructor <;> linarith
    rw [hf]
    push_cast
    rw [if_neg (by linarith), if_pos (by linarith)]
    ring

theorem roundHalfEven_ge (m : ℚ) (k : Int) (h : (k : ℚ) ≤ m) : k ≤ roundHalfEven m := by
  have hf : k ≤ ⌊m⌋ := Int.le_floor.2 h
  unfold roundHalfEven
  split_ifs <;> omega

theorem roundHalfEven_le (m : ℚ) (k : Int) (h : m ≤ (k : ℚ)) : roundHalfEven m ≤ k := by
  have hf : ⌊m⌋ ≤ k := by
    have h3 : (⌊m⌋ : ℚ) ≤ k := le_trans (Int.floor_le m) h
    exact_mod_cast h3
  by_cases hk : ⌊m⌋ = k
  · have hm : m = ⌊m⌋ := le_antisymm (by rw [hk]; exact h) (Int.floor_le m)
    unfold roundHalfEven
    rw [if_pos (by rw [← hm]; norm_num), hk]
  · unfold roundHalfEven
    split_ifs <;> omega

theorem log_two_eq (r : ℚ) (e : Int) (h1 : (2 : ℚ) ^ e ≤ r) (h2 : r < (2 : ℚ) ^ (e + 1)) :
    Int.log 2 r = e := by
  have hr : 0 < r := lt_of_lt_of_le (by positivity) h1
  have a : e ≤ Int.log 2 r := (Int.zpow_le_iff_le_log (by norm_num) hr).1 (by exact_mod_cast h1)
  have b : Int.log 2 r < e + 1 :=
    (Int.lt_zpow_iff_log_lt (by norm_num) hr).1 (by exact_mod_cast h2)
  omega

/-- Evaluation of `roundFloat32` from the exponent and the rounded significand. -/
theorem roundFloat32_of (q : ℚ) (e n : Int) (he : -126 ≤ e) (h1 : (2 : ℚ) ^ e ≤ |q|)
    (h2 : |q| < (2 : ℚ) ^ (e + 1)) (hn : |q / 2 ^ (e - 23) - n| < 1 / 2) :
    roundFloat32 q = n * 2 ^ (e - 23) := by
  have hq : q ≠ 0 := by
    intro h0
    rw [h0, abs_zero] at h1
    exact absurd h1 (not_le.2 (by positivity))
  unfold roundFloat32
  rw [if_neg hq, log_two_eq |q| e h1 h2, max_eq_left he, roundHalfEven_eq _ n hn]

theorem roundFloat32_normal (q : ℚ) (hq : (2 : ℚ) ^ (-126 : Int) ≤ |q|) :
    |roundFloat32 q - q| ≤ |q| / 2 ^ 24 ∧
      (0 < q → (2 : ℚ) ^ Int.log 2 |q| ≤ roundFloat32 q) ∧
      (q < 0 → roundFloat32 q ≤ -(2 : ℚ) ^ Int.log 2 |q|) := by
  have habs : 0 < |q| := lt_of_lt_of_le (by positivity) hq
  have hq0 : q ≠ 0 := abs_pos.1 habs
  have he : -126 ≤ Int.log 2 |q| :=
    (Int.zpow_le_iff_le_log (by norm_num) habs).1 (by exact_mod_cast hq)
  have hlo : (2 : ℚ) ^ Int.log 2 |q| ≤ |q| := by
    have := Int.zpow_log_le_self (b := 2) (r := |q|) (by norm_num) habs
    exact_mod_cast this
  have hulp : (0 : ℚ) < 2 ^ (Int.log 2 |q| - 23) := by positivity
  have hsplit : (2 : ℚ) ^ Int.log 2 |q| = 2 ^ (23 : Int) * 2 ^ (Int.log 2 |q| - 23) := by
    rw [← zpow_add₀ (by norm_num : (2 : ℚ) ≠ 0)]
    congr 1
    ring
  have h23 : (2 : ℚ) ^ (23 : Int) = 8388608 := by norm_num
  unfold roundFloat32
  rw [if_neg hq0, max_eq_left he]
  generalize Int.log 2 |q| = e at *
  set ulp : ℚ := 2 ^ (e - 23) with hu
  set m : ℚ := q / ulp with hm
  have hqm : q = m * ulp := by
    rw [hm]
    field_simp
  refine ⟨?_, ?_, ?_⟩
  · have herr := roundHalfEven_sub_le m
    have e1 : (roundHalfEven m : ℚ) * ulp - q = ((roundHalfEven m : ℚ) - m) * ulp := by
      rw [sub_mul, ← hqm]
    rw [e1, abs_mul, abs_of_pos hulp]
    have e2 : |(roundHalfEven m : ℚ) - m| * ulp ≤ 1 / 2 * ulp :=
      mul_le_mul_of_nonneg_right herr (le_of_lt hulp)
    have e3 : 1 / 2 * ulp ≤ |q| / 2 ^ 24 := by
      rw [hsplit, h23] at hlo
      rw [div_eq_mul_inv]
      norm_num
      linarith
    exact le_trans e2 e3
  · intro hpos
    rw [abs_of_pos hpos] at hlo
    have hm23 : ((8388608 : Int) : ℚ) ≤ m := by
      rw [hm, le_div_iff₀ hulp]
      push_cast
      rw [hsplit, h23] at hlo
      exact hlo
    have hr := roundHalfEven_ge m 8388608 hm23
    have hr' : (8388608 : ℚ) ≤ (roundHalfEven m : ℚ) := by exact_mod_cast hr
    rw [hsplit, h23]
    exact mul_le_mul_of_nonneg_right hr' (le_of_lt hulp)
  · intro hneg
    rw [abs_of_neg hneg] at hlo
    have hm23 : m ≤ ((-8388608 : Int) : ℚ) := by
      rw [hm, div_le_iff₀ hulp]
      push_cast
      rw [hsplit, h23] at hlo
      linarith
    have hr := roundHalfEven_le m (-8388608) hm23
    have hr' : (roundHalfEven m : ℚ) ≤ (-8388608 : ℚ) := by exact_mod_cast hr
    rw [hsplit, h23]
    have := mul_le_mul_of_nonneg_right hr' (le_of_lt hulp)
    linarith


theorem roundFloat32_int (s : Int) (hs : s ≠ 0) :
    |roundFloat32 s - s| ≤ |(s : ℚ)| / 2 ^ 24 ∧
      (0 < s → 1 ≤ roundFloat32 s) ∧ (s < 0 → roundFloat32 s ≤ -1) := by
  have h1 : (1 : ℚ) ≤ |(s : ℚ)| := by
    have : (1 : Int) ≤ |s| := Int.one_le_abs hs
    exact_mod_cast this
  have hq : (2 : ℚ) ^ (-126 : Int) ≤ |(s : ℚ)| :=
    le_trans (zpow_le_one_of_nonpos₀ (by norm_num) (by norm_num)) h1
  have hlog : (0 : Int) ≤ Int.log 2 |(s : ℚ)| :=
    (Int.zpow_le_iff_le_log (by norm_num) (lt_of_lt_of_le one_pos h1)).1 (by simpa using h1)
  have hpow : (1 : ℚ) ≤ 2 ^ Int.log 2 |(s : ℚ)| := one_le_zpow₀ (by norm_num) hlog
  obtain ⟨a, b, c⟩ := roundFloat32_normal s hq
  refine ⟨a, fun h => le_trans hpow (b (by exact_mod_cast h)), fun h => ?_⟩
  have := c (by exact_mod_cast h)
  linarith

theorem divBy100f_zero : divBy100f 0 = 0 := by
  simp [divBy100f, roundFloat32]

/-- The value of `x / 100.0f` has the sign of `x` and lies within
`|x / 100| / 2 ^ 22` of `x / 100`. -/
theorem divBy100f_spec (s : Int) :
    |divBy100f s - (s : ℚ) / 100| ≤ |(s : ℚ) / 100| / 2 ^ 22 ∧
      (0 < s → 0 < divBy100f s) ∧ (s < 0 → divBy100f s < 0) := by
  by_cases hs : s = 0
  · subst hs
    rw [divBy100f_zero]
    simp
  obtain ⟨a, b, c⟩ := roundFloat32_int s hs
  have habs1 : (1 : ℚ) ≤ |roundFloat32 (s : ℚ)| := by
    rcases lt_or_gt_of_ne hs with h | h
    · have := c h
      rw [abs_of_neg (by linarith)]
      linarith
    · have := b h
      rw [abs_of_pos (by linarith)]
      exact this
  have hq : (2 : ℚ) ^ (-126 : Int) ≤ |roundFloat32 (s : ℚ) / 100| := by
    rw [abs_div]
    have h100 : |(100 : ℚ)| = 100 := by norm_num
    rw [h100]
    have : (2 : ℚ) ^ (-126 : Int) ≤ 1 / 100 := by norm_num
    refine le_trans this ?_
    apply div_le_div_of_nonneg_right habs1 (by norm_num)
  obtain ⟨a2, b2, c2⟩ := roundFloat32_normal (roundFloat32 (s : ℚ) / 100) hq
  unfold divBy100f
  refine ⟨?_, ?_, ?_⟩
  · set A : ℚ := roundFloat32 (s : ℚ) with hA
    set V : ℚ := roundFloat32 (A / 100) with hV
    have hAs : |A| ≤ |(s : ℚ)| + |(s : ℚ)| / 2 ^ 24 := by
      have := abs_sub_abs_le_abs_sub A (s : ℚ)
      linarith
    have t1 : |V - (s : ℚ) / 100| ≤ |V - A / 100| + |A / 100 - (s : ℚ) / 100| := by
      have := abs_sub_le V (A / 100) ((s : ℚ) / 100)
      exact this
    have t2 : |A / 100 - (s : ℚ) / 100| = |A - s| / 100 := by
      rw [← sub_div, abs_div]
      norm_num
    have t3 : |A / 100| = |A| / 100 := by
      rw [abs_div]
      norm_num
    have t4 : |(s : ℚ) / 100| = |(s : ℚ)| / 100 := by
      rw [abs_div]
      norm_num
    rw [t3] at a2
    rw [t2] at t1
    rw [t4]
    have hs0 : (0 : ℚ) ≤ |(s : ℚ)| := abs_nonneg _
    have : |V - A / 100| + |A - ↑s| / 100 ≤ |(s : ℚ)| / 100 / 2 ^ 22 := by
      have e1 : |V - A / 100| ≤ (|(s : ℚ)| + |(s : ℚ)| / 2 ^ 24) / 100 / 2 ^ 24 := by
        refine le_trans a2 ?_
        apply div_le_div_of_nonneg_right _ (by positivity)
        exact div_le_div_of_nonneg_right hAs (by norm_num)
      have e2 : |A - ↑s| / 100 ≤ |(s : ℚ)| / 2 ^ 24 / 100 :=
        div_le_div_of_nonneg_right a (by norm_num)
      have e3 : (|(s : ℚ)| + |(s : ℚ)| / 2 ^ 24) / 100 / 2 ^ 24 + |(s : ℚ)| / 2 ^ 24 / 100 ≤
          |(s : ℚ)| / 100 / 2 ^ 22 := by
        have : (|(s : ℚ)| + |(s : ℚ)| / 2 ^ 24) / 100 / 2 ^ 24 + |(s : ℚ)| / 2 ^ 24 / 100 =
            |(s : ℚ)| * ((1 + 1 / 2 ^ 24) / 100 / 2 ^ 24 + 1 / 2 ^ 24 / 100) := by ring
        rw [this]
        have : |(s : ℚ)| / 100 / 2 ^ 22 = |(s : ℚ)| * (1 / 100 / 2 ^ 22) := by ring
        rw [this]
        apply mul_le_mul_of_nonneg_left _ hs0
        norm_num
      linarith
    linarith
  · intro h
    have hA := b h
    have hpos : 0 < roundFloat32 (s : ℚ) / 100 := by positivity
    have := b2 hpos
    exact lt_of_lt_of_le (by positivity) this
  · intro h
    have hA := c h
    have hneg : roundFloat32 (s : ℚ) / 100 < 0 := by
      apply div_neg_of_neg_of_pos _ (by norm_num)
      linarith
    have := c2 hneg
    have hp : (0 : ℚ) < 2 ^ Int.log 2 |roundFloat32 (s : ℚ) / 100| := by positivity
    linarith

/-- The value `-2147483647 / 100.0f`: the `int` rounds to `-2 ^ 31`, the quotient
`-21474836.48` to `-21474836`. -/
theorem divBy100f_min_plus_one : divBy100f (-2147483647) = -21474836 := by
  have h1 : roundFloat32 ((-2147483647 : Int) : ℚ) = -2147483648 := by
    have := roundFloat32_of ((-2147483647 : Int) : ℚ) 30 (-16777216) (by norm_num)
      (by norm_num [abs_of_neg]) (by norm_num [abs_of_neg]) (by norm_num [abs_lt])
    rw [this]
    norm_num
  have h2 : roundFloat32 ((-2147483648 : ℚ) / 100) = -21474836 := by
    have := roundFloat32_of ((-2147483648 : ℚ) / 100) 24 (-10737418) (by norm_num)
      (by norm_num [abs_of_neg]) (by norm_num [abs_of_neg]) (by norm_num [abs_lt])
    rw [this]
    norm_num
  unfold divBy100f
  rw [h1, h2]

/-- The value `33554433 / 100.0f`: the `int` `2 ^ 25 + 1` rounds to `2 ^ 25`, the
quotient `335544.32` to `335544.3125`. -/
theorem divBy100f_two_pow_25_plus_one : divBy100f 33554433 = 5368709 / 16 := by
  have h1 : roundFloat32 ((33554433 : Int) : ℚ) = 33554432 := by
    have := roundFloat32_of ((33554433 : Int) : ℚ) 25 8388608 (by norm_num)
      (by norm_num [abs_of_pos]) (by norm_num [abs_of_pos]) (by norm_num [abs_lt])
    rw [this]
    norm_num
  have h2 : roundFloat32 ((33554432 : ℚ) / 100) = 5368709 / 16 := by
    have := roundFloat32_of ((33554432 : ℚ) / 100) 18 10737418 (by norm_num)
      (by norm_num [abs_of_pos]) (by norm_num [abs_of_pos]) (by norm_num [abs_lt])
    rw [this]
    norm_num
  unfold divBy100f
  rw [h1, h2]

theorem scale100Int_eq (low high : Nat) (hl : low < 65536) (hh : high < 65536) :
    scale100Int low high = divBy100f (signedComposition low high) := by
  unfold scale100Int
  rw [compose32_eq low high hl hh]

theorem signedComposition_sign (low high : Nat) (hl : low < 65536) (hh : high < 65536) :
    (high < 32768 → 0 ≤ signedComposition low high) ∧
      (32768 ≤ high → signedComposition low high < 0) := by
  unfold signedComposition
  constructor
  · intro h
    rw [if_pos h]
    omega
  · intro h
    rw [if_neg (by omega)]
    omega

end EPEVER

namespace EPEVER

/-! ## 32-bit composed values -/

/-- C1 (amended): for every pair of 16-bit words `low`, `high`, a successful read
that returns them as the low and high word of a 32-bit quantity stores the
binary32 result of `(low | high << 16) / 100.0f`, the operands promoted to `int`:
with `s` the signed 32-bit reading of the composition (`low + 65536 * high` when
`high < 0x8000`, `low + 65536 * high - 2 ^ 32` when `high ≥ 0x8000`) the field
holds `s` rounded to `float` and the quotient by 100 rounded again. That value
lies within `|s / 100| / 2 ^ 22` of `s / 100`, is non-negative when
`high < 0x8000` and negative when `high ≥ 0x8000`. This holds for `pvpower`,
`battChargePower`, `lpower`, `battOverallCurrent` and the four generated-energy
statistics. -/
theorem composed32_reads_signed (P : Platform) (t : EPEVERSolarTracer) (low high : Nat)
    (hl : low < 65536) (hh : high < 65536) :
    (returnsWords P t (.readInputRegisters 0x3100 6) 2 3 low high →
      (AddressRegistry_3100 P t).pvpower = divBy100f (signedComposition low high)) ∧
    (returnsWords P t (.readInputRegisters 0x3106 2) 0 1 low high →
      (AddressRegistry_3106 P t).battChargePower = divBy100f (signedComposition low high)) ∧
    (returnsWords P t (.readInputRegisters 0x310D 3) 1 2 low high →
      (AddressRegistry_310D P t).lpower = divBy100f (signedComposition low high)) ∧
    (returnsWords P t (.readInputRegisters 0x331B 2) 0 1 low high →
      (AddressRegistry_331B P t).battOverallCurrent =
        divBy100f (signedComposition low high)) ∧
    (returnsWords P t (.readInputRegisters 0x3300 29) 12 13 low high →
      (updateStats P t).stats_today_generated_energy =
        divBy100f (signedComposition low high)) ∧
    (returnsWords P t (.readInputRegisters 0x3300 29) 14 15 low high →
      (updateStats P t).stats_month_generated_energy =
        divBy100f (signedComposition low high)) ∧
    (returnsWords P t (.readInputRegisters 0x3300 29) 16 17 low high →
      (updateStats P t).stats_year_generated_energy =
        divBy100f (signedComposition low high)) ∧
    (returnsWords P t (.readInputRegisters 0x3300 29) 18 19 low high →
      (updateStats P t).stats_total_generated_energy =
        divBy100f (signedComposition low high)) ∧
    divBy100f (signedComposition low high) =
      roundFloat32 (roundFloat32 (signedComposition low high) / 100) ∧
    |divBy100f (signedComposition low high) - (signedComposition low high : ℚ) / 100| ≤
      |(signedComposition low high : ℚ) / 100| / 2 ^ 22 ∧
    (high < 32768 →
      signedComposition low high = (low : Int) + 65536 * high ∧
        0 ≤ divBy100f (signedComposition low high)) ∧
    (32768 ≤ high →
      signedComposition low high = (low : Int) + 65536 * high - 4294967296 ∧
        divBy100f (signedComposition low high) < 0) := by
  have hspec := divBy100f_spec (signedComposition low high)
  have hsign := signedComposition_sign low high hl hh
  refine ⟨?_, ?_, ?_, ?_, ?_, ?_, ?_, ?_, rfl, hspec.1, ?_, ?_⟩
  · rintro ⟨hok, h1, h2⟩
    simp only [AddressRegistry_3100, MODBUS_ADDRESS_PV_VOLTAGE, hok, if_true, h1, h2]
    exact scale100Int_eq low high hl hh
  · rintro ⟨hok, h1, h2⟩
    simp only [AddressRegistry_3106, hok, if_true, h1, h2]
    exact scale100Int_eq low high hl hh
  · rintro ⟨hok, h1, h2⟩
    simp only [AddressRegistry_310D, hok, if_true, h1, h2]
    exact scale100Int_eq low high hl hh
  · rintro ⟨hok, h1, h2⟩
    simp only [AddressRegistry_331B, hok, if_true, h1, h2]
    exact scale100Int_eq low high hl hh
  · rintro ⟨hok, h1, h2⟩
    simp only [updateStats, MODBUS_ADDRESS_STAT_MAX_PV_VOLTAGE_TODAY, hok, if_true, h1, h2]
    exact scale100Int_eq low high hl hh
  · rintro ⟨hok, h1, h2⟩
    simp only [updateStats, MODBUS_ADDRESS_STAT_MAX_PV_VOLTAGE_TODAY, hok, if_true, h1, h2]
    exact scale100Int_eq low high hl hh
  · rintro ⟨hok, h1, h2⟩
    simp only [updateStats, MODBUS_ADDRESS_STAT_MAX_PV_VOLTAGE_TODAY, hok, if_true, h1, h2]
    exact scale100Int_eq low high hl hh
  · rintro ⟨hok, h1, h2⟩
    simp only [updateStats, MODBUS_ADDRESS_STAT_MAX_PV_VOLTAGE_TODAY, hok, if_true, h1, h2]
    exact scale100Int_eq low high hl hh
  · intro h
    refine ⟨by simp only [signedComposition, h, if_true], ?_⟩
    rcases (hsign.1 h).lt_or_eq with hpos | hzero
    · exact le_of_lt (hspec.2.1 hpos)
    · rw [← hzero, divBy100f_zero]
  · intro h
    have hn : ¬ high < 32768 := by omega
    exact ⟨by simp only [signedComposition, hn, if_false], hspec.2.2 (hsign.2 h)⟩

/-- C1, at a concrete input: block 0x3100 answered with low word 1 and high word
0x8000 (`s = 1 + 65536 * 32768 - 2 ^ 32 = -2147483647`) stores `-21474836` in
`pvpower`. -/
theorem composed32_reads_signed_witness :
    (AddressRegistry_3100 (listBus [0, 0, 1, 32768, 0, 0]) bootTracer).pvpower = -21474836 :=
  ((composed32_reads_signed (listBus [0, 0, 1, 32768, 0, 0]) bootTracer 1 32768
    (by decide) (by decide)).1 ⟨rfl, rfl, rfl⟩).trans
    ((congrArg divBy100f (by decide : signedComposition 1 32768 = -2147483647)).trans
      divBy100f_min_plus_one)

/-- C1 as stated fails. With low word 0 and high word 0x8000 returned for block
0x3100, `pvpower` is negative, not the unsigned `(0 + 65536 * 32768) / 100`; and
with low word 1 and high word 0x0200 it is `335544.3125`, not
`(1 + 65536 * 512) / 100 = 335544.33`. -/
theorem composed32_unsigned_fails :
    (AddressRegistry_3100 (listBus [0, 0, 0, 32768, 0, 0]) bootTracer).pvpower < 0 ∧
    (AddressRegistry_3100 (listBus [0, 0, 0, 32768, 0, 0]) bootTracer).pvpower ≠
      ((0 + 65536 * 32768 : Nat) : ℚ) / 100 ∧
    (AddressRegistry_3100 (listBus [0, 0, 1, 512, 0, 0]) bootTracer).pvpower = 5368709 / 16 ∧
    (AddressRegistry_3100 (listBus [0, 0, 1, 512, 0, 0]) bootTracer).pvpower ≠
      ((1 + 65536 * 512 : Nat) : ℚ) / 100 := by
  have h1 : (AddressRegistry_3100 (listBus [0, 0, 0, 32768, 0, 0]) bootTracer).pvpower =
      divBy100f (signedComposition 0 32768) :=
    scale100Int_eq 0 32768 (by decide) (by decide)
  have h2 : (AddressRegistry_3100 (listBus [0, 0, 1, 512, 0, 0]) bootTracer).pvpower =
      divBy100f (signedComposition 1 512) :=
    scale100Int_eq 1 512 (by decide) (by decide)
  have hneg : divBy100f (signedComposition 0 32768) < 0 :=
    (divBy100f_spec _).2.2 (by decide)
  have hval : divBy100f (signedComposition 1 512) = 5368709 / 16 :=
    (congrArg divBy100f (by decide : signedComposition 1 512 = 33554433)).trans
      divBy100f_two_pow_25_plus_one
  rw [h1, h2]
  refine ⟨hneg, ?_, hval, ?_⟩
  · intro h
    rw [h] at hneg
    norm_num at hneg
  · rw [hval]
    norm_num

end EPEVER

namespace EPEVER

/-! ## 16-bit scaled values -/

/-- C8: a successful read stores exactly `w / 100` in each 16-bit scaled field and
`w` itself in the state of charge, `w` being the raw 16-bit word at the field's
index of the response: block 0x3100 words 0, 1, 4, 5; block 0x310D word 0; block
0x3110 words 0, 1; block 0x311A words 0 (state of charge) and 1; block 0x3300
words 0 to 3. -/
theorem scaled16_reads (P : Platform) (t : EPEVERSolarTracer) :
    ((reply P t (.readInputRegisters 0x3100 6)).result = ku8MBSuccess →
      (AddressRegistry_3100 P t).pvvoltage =
          (getResponseBuffer (reply P t (.readInputRegisters 0x3100 6)) 0 : ℚ) / 100 ∧
        (AddressRegistry_3100 P t).pvcurrent =
          (getResponseBuffer (reply P t (.readInputRegisters 0x3100 6)) 1 : ℚ) / 100 ∧
        (AddressRegistry_3100 P t).bvoltage =
          (getResponseBuffer (reply P t (.readInputRegisters 0x3100 6)) 4 : ℚ) / 100 ∧
        (AddressRegistry_3100 P t).battChargeCurrent =
          (getResponseBuffer (reply P t (.readInputRegisters 0x3100 6)) 5 : ℚ) / 100) ∧
    ((reply P t (.readInputRegisters 0x310D 3)).result = ku8MBSuccess →
      (AddressRegistry_310D P t).lcurrent =
          (getResponseBuffer (reply P t (.readInputRegisters 0x310D 3)) 0 : ℚ) / 100) ∧
    ((reply P t (.readInputRegisters 0x3110 2)).result = ku8MBSuccess →
      (AddressRegistry_3110 P t).btemp =
          (getResponseBuffer (reply P t (.readInputRegisters 0x3110 2)) 0 : ℚ) / 100 ∧
        (AddressRegistry_3110 P t).ctemp =
          (getResponseBuffer (reply P t (.readInputRegisters 0x3110 2)) 1 : ℚ) / 100) ∧
    ((reply P t (.readInputRegisters 0x311A 2)).result = ku8MBSuccess →
      (AddressRegistry_311A P t).bremaining =
          (getResponseBuffer (reply P t (.readInputRegisters 0x311A 2)) 0 : ℚ) ∧
        (AddressRegistry_311A P t).rtemp =
          (getResponseBuffer (reply P t (.readInputRegisters 0x311A 2)) 1 : ℚ) / 100) ∧
    ((reply P t (.readInputRegisters 0x3300 29)).result = ku8MBSuccess →
      (updateStats P t).stats_today_pv_volt_min =
          (getResponseBuffer (reply P t (.readInputRegisters 0x3300 29)) 0 : ℚ) / 100 ∧
        (updateStats P t).stats_today_pv_volt_max =
          (getResponseBuffer (reply P t (.readInputRegisters 0x3300 29)) 1 : ℚ) / 100 ∧
        (updateStats P t).stats_today_bat_volt_min =
          (getResponseBuffer (reply P t (.readInputRegisters 0x3300 29)) 2 : ℚ) / 100 ∧
        (updateStats P t).stats_today_bat_volt_max =
          (getResponseBuffer (reply P t (.readInputRegisters 0x3300 29)) 3 : ℚ) / 100) ∧
    (∀ w : Nat, w < 65536 →
      getResponseBuffer (reply (goodBus w) t (.readInputRegisters 0x3100 6)) 0 = w) := by
  refine ⟨?_, ?_, ?_, ?_, ?_, ?_⟩
  · intro hok
    simp only [reply] at hok
    simp only [AddressRegistry_3100, MODBUS_ADDRESS_PV_VOLTAGE, hok, if_true, scale100,
      reply, and_self]
  · intro hok
    simp only [reply] at hok
    simp only [AddressRegistry_310D, hok, if_true, scale100, reply]
  · intro hok
    simp only [reply] at hok
    simp only [AddressRegistry_3110, MODBUS_ADDRESS_BATT_TEMP, hok, if_true, scale100,
      reply, and_self]
  · intro hok
    simp only [reply] at hok
    simp only [AddressRegistry_311A, MODBUS_ADDRESS_BATT_SOC, hok, if_true, scale100,
      reply, div_one, and_self]
  · intro hok
    simp only [reply] at hok
    simp only [updateStats, MODBUS_ADDRESS_STAT_MAX_PV_VOLTAGE_TODAY, hok, if_true,
      scale100, reply, and_self]
  · intro w hw
    simp only [reply, goodBus, constBus, getResponseBuffer]
    omega

/-- C8, at a concrete input: block 0x311A answered with the words 87 and 2150
stores a state of charge of 87 and a remote temperature of 21.5. -/
theorem scaled16_reads_witness :
    (AddressRegistry_311A (listBus [87, 2150]) bootTracer).bremaining = 87 ∧
    (AddressRegistry_311A (listBus [87, 2150]) bootTracer).rtemp = 2150 / 100 := by
  have h := (scaled16_reads (listBus [87, 2150]) bootTracer).2.2.2.1 rfl
  simpa [reply, listBus, constBus, getResponseBuffer] using h

end EPEVER

namespace EPEVER

/-! ## Frame lemmas: what each operation does to the counters, the flag and the log -/

section frame
variable (P : Platform) (t : EPEVERSolarTracer)

@[simp] theorem AddressRegistry_3100_counters :
    (AddressRegistry_3100 P t).globalUpdateCounter = t.globalUpdateCounter ∧
    (AddressRegistry_3100 P t).currentRealtimeUpdateCounter = t.currentRealtimeUpdateCounter := by
  simp only [AddressRegistry_3100, record]
  split <;> exact ⟨rfl, rfl⟩

@[simp] theorem AddressRegistry_3106_counters :
    (AddressRegistry_3106 P t).globalUpdateCounter = t.globalUpdateCounter ∧
    (AddressRegistry_3106 P t).currentRealtimeUpdateCounter = t.currentRealtimeUpdateCounter := by
  simp only [AddressRegistry_3106, record]
  split <;> exact ⟨rfl, rfl⟩

@[simp] theorem AddressRegistry_310D_counters :
    (AddressRegistry_310D P t).globalUpdateCounter = t.globalUpdateCounter ∧
    (AddressRegistry_310D P t).currentRealtimeUpdateCounter = t.currentRealtimeUpdateCounter := by
  simp only [AddressRegistry_310D, record]
  split <;> exact ⟨rfl, rfl⟩

@[simp] theorem AddressRegistry_3110_counters :
    (AddressRegistry_3110 P t).globalUpdateCounter = t.globalUpdateCounter ∧
    (AddressRegistry_3110 P t).currentRealtimeUpdateCounter = t.currentRealtimeUpdateCounter := by
  simp only [AddressRegistry_3110, record]
  split <;> exact ⟨rfl, rfl⟩

@[simp] theorem AddressRegistry_311A_counters :
    (AddressRegistry_311A P t).globalUpdateCounter = t.globalUpdateCounter ∧
    (AddressRegistry_311A P t).currentRealtimeUpdateCounter = t.currentRealtimeUpdateCounter := by
  simp only [AddressRegistry_311A, record]
  split <;> exact ⟨rfl, rfl⟩

@[simp] theorem AddressRegistry_331B_counters :
    (AddressRegistry_331B P t).globalUpdateCounter = t.globalUpdateCounter ∧
    (AddressRegistry_331B P t).currentRealtimeUpdateCounter = t.currentRealtimeUpdateCounter := by
  simp only [AddressRegistry_331B, record]
  split <;> exact ⟨rfl, rfl⟩

@[simp] theorem fetchAddressStatusVariables_counters :
    (fetchAddressStatusVariables P t).globalUpdateCounter = t.globalUpdateCounter ∧
    (fetchAddressStatusVariables P t).currentRealtimeUpdateCounter =
      t.currentRealtimeUpdateCounter := by
  simp only [fetchAddressStatusVariables, record]
  split <;> exact ⟨rfl, rfl⟩

@[simp] theorem updateStats_counters :
    (updateStats P t).globalUpdateCounter = t.globalUpdateCounter ∧
    (updateStats P t).currentRealtimeUpdateCounter = t.currentRealtimeUpdateCounter := by
  simp only [updateStats, record]
  split <;> exact ⟨rfl, rfl⟩

@[simp] theorem readControllerSingleCoil_counters (a : Nat) :
    (readControllerSingleCoil P t a).2.globalUpdateCounter = t.globalUpdateCounter ∧
    (readControllerSingleCoil P t a).2.currentRealtimeUpdateCounter =
      t.currentRealtimeUpdateCounter := by
  simp only [readControllerSingleCoil, record]
  split <;> exact ⟨rfl, rfl⟩

@[simp] theorem writeControllerSingleCoil_counters (a : Nat) (b : Bool) :
    (writeControllerSingleCoil P t a b).2.globalUpdateCounter = t.globalUpdateCounter ∧
    (writeControllerSingleCoil P t a b).2.currentRealtimeUpdateCounter =
      t.currentRealtimeUpdateCounter := by
  simp only [writeControllerSingleCoil, record]
  split <;> exact ⟨rfl, rfl⟩

@[simp] theorem syncRealtimeClock_counters (ti : Tm) :
    (syncRealtimeClock P t ti).2.globalUpdateCounter = t.globalUpdateCounter ∧
    (syncRealtimeClock P t ti).2.currentRealtimeUpdateCounter =
      t.currentRealtimeUpdateCounter := by
  simp only [syncRealtimeClock, record]
  split <;> exact ⟨rfl, rfl⟩

@[simp] theorem fetchValue_counters (v : SolarTracerVariables) :
    (fetchValue P t v).2.globalUpdateCounter = t.globalUpdateCounter ∧
    (fetchValue P t v).2.currentRealtimeUpdateCounter = t.currentRealtimeUpdateCounter := by
  cases v <;> simp only [fetchValue]
  · exact readControllerSingleCoil_counters P t _
  · split <;> exact readControllerSingleCoil_counters P t _
  · split <;> exact readControllerSingleCoil_counters P t _
  · trivial

@[simp] theorem writeBoolValue_counters (v : SolarTracerVariables) (b : Bool) :
    (writeBoolValue P t v b).2.globalUpdateCounter = t.globalUpdateCounter ∧
    (writeBoolValue P t v b).2.currentRealtimeUpdateCounter =
      t.currentRealtimeUpdateCounter := by
  cases v <;> simp only [writeBoolValue]
  · exact writeControllerSingleCoil_counters P t _ b
  · exact writeControllerSingleCoil_counters P t _ b
  · exact writeControllerSingleCoil_counters P t _ b
  · trivial

theorem fetchAllValues_counters :
    (fetchAllValues P t).globalUpdateCounter = t.globalUpdateCounter ∧
    (fetchAllValues P t).currentRealtimeUpdateCounter = t.currentRealtimeUpdateCounter := by
  simp [fetchAllValues]

/-- The counters after a tick, as a function of the counters before it. -/
theorem updateRun_counters :
    (updateRun P t).2.globalUpdateCounter =
      (counterStep (t.globalUpdateCounter, t.currentRealtimeUpdateCounter)).1 ∧
    (updateRun P t).2.currentRealtimeUpdateCounter =
      (counterStep (t.globalUpdateCounter, t.currentRealtimeUpdateCounter)).2 := by
  unfold updateRun counterStep
  by_cases hg : t.globalUpdateCounter = 360
  · simp [hg]
  · simp only [hg, if_false]
    unfold realtimeDispatch
    split <;> simp_all

end frame

end EPEVER

namespace EPEVER

/-! ## Frame lemmas: the log, the flag and the telemetry -/

section effects
variable (P : Platform) (t : EPEVERSolarTracer)

@[simp] theorem AddressRegistry_3100_log :
    (AddressRegistry_3100 P t).log =
      t.log ++ [⟨Request.readInputRegisters 0x3100 6, (P.bus t.log (Request.readInputRegisters 0x3100 6)).result⟩] := by
  simp only [AddressRegistry_3100, record, MODBUS_ADDRESS_PV_VOLTAGE]
  split <;> rfl

@[simp] theorem AddressRegistry_3100_flag :
    (AddressRegistry_3100 P t).rs485readSuccess = t.rs485readSuccess := by
  simp only [AddressRegistry_3100, record, MODBUS_ADDRESS_PV_VOLTAGE]
  split <;> rfl

theorem AddressRegistry_3100_failed
    (h : (P.bus t.log (Request.readInputRegisters 0x3100 6)).result ≠ ku8MBSuccess) :
    (AddressRegistry_3100 P t).toSolarTracer = t.toSolarTracer := by
  simp only [AddressRegistry_3100, record, MODBUS_ADDRESS_PV_VOLTAGE, h, if_false]

@[simp] theorem AddressRegistry_3106_log :
    (AddressRegistry_3106 P t).log =
      t.log ++ [⟨Request.readInputRegisters 0x3106 2, (P.bus t.log (Request.readInputRegisters 0x3106 2)).result⟩] := by
  simp only [AddressRegistry_3106, record]
  split <;> rfl

@[simp] theorem AddressRegistry_3106_flag :
    (AddressRegistry_3106 P t).rs485readSuccess = t.rs485readSuccess := by
  simp only [AddressRegistry_3106, record]
  split <;> rfl

theorem AddressRegistry_3106_failed
    (h : (P.bus t.log (Request.readInputRegisters 0x3106 2)).result ≠ ku8MBSuccess) :
    (AddressRegistry_3106 P t).toSolarTracer = t.toSolarTracer := by
  simp only [AddressRegistry_3106, record, h, if_false]

@[simp] theorem AddressRegistry_310D_log :
    (AddressRegistry_310D P t).log =
      t.log ++ [⟨Request.readInputRegisters 0x310D 3, (P.bus t.log (Request.readInputRegisters 0x310D 3)).result⟩] := by
  simp only [AddressRegistry_310D, record]
  split <;> rfl

@[simp] theorem AddressRegistry_310D_flag :
    (AddressRegistry_310D P t).rs485readSuccess =
      if (P.bus t.log (Request.readInputRegisters 0x310D 3)).result = ku8MBSuccess then t.rs485readSuccess
      else false := by
  simp only [AddressRegistry_310D, record]
  split <;> rfl

theorem AddressRegistry_310D_failed
    (h : (P.bus t.log (Request.readInputRegisters 0x310D 3)).result ≠ ku8MBSuccess) :
    (AddressRegistry_310D P t).toSolarTracer = t.toSolarTracer := by
  simp only [AddressRegistry_310D, record, h, if_false]

@[simp] theorem AddressRegistry_3110_log :
    (AddressRegistry_3110 P t).log =
      t.log ++ [⟨Request.readInputRegisters 0x3110 2, (P.bus t.log (Request.readInputRegisters 0x3110 2)).result⟩] := by
  simp only [AddressRegistry_3110, record, MODBUS_ADDRESS_BATT_TEMP]
  split <;> rfl

@[simp] theorem AddressRegistry_3110_flag :
    (AddressRegistry_3110 P t).rs485readSuccess =
      if (P.bus t.log (Request.readInputRegisters 0x3110 2)).result = ku8MBSuccess then t.rs485readSuccess
      else false := by
  simp only [AddressRegistry_3110, record, MODBUS_ADDRESS_BATT_TEMP]
  split <;> rfl

theorem AddressRegistry_3110_failed
    (h : (P.bus t.log (Request.readInputRegisters 0x3110 2)).result ≠ ku8MBSuccess) :
    (AddressRegistry_3110 P t).toSolarTracer = t.toSolarTracer := by
  simp only [AddressRegistry_3110, record, MODBUS_ADDRESS_BATT_TEMP, h, if_false]

@[simp] theorem AddressRegistry_311A_log :
    (AddressRegistry_311A P t).log =
      t.log ++ [⟨Request.readInputRegisters 0x311A 2, (P.bus t.log (Request.readInputRegisters 0x311A 2)).result⟩] := by
  simp only [AddressRegistry_311A, record, MODBUS_ADDRESS_BATT_SOC]
  split <;> rfl

@[simp] theorem AddressRegistry_311A_flag :
    (AddressRegistry_311A P t).rs485readSuccess =
      if (P.bus t.log (Request.readInputRegisters 0x311A 2)).result = ku8MBSuccess then t.rs485readSuccess
      else false := by
  simp only [AddressRegistry_311A, record, MODBUS_ADDRESS_BATT_SOC]
  split <;> rfl

theorem AddressRegistry_311A_failed
    (h : (P.bus t.log (Request.readInputRegisters 0x311A 2)).result ≠ ku8MBSuccess) :
    (AddressRegistry_311A P t).toSolarTracer = t.toSolarTracer := by
  simp only [AddressRegistry_311A, record, MODBUS_ADDRESS_BATT_SOC, h, if_false]

@[simp] theorem AddressRegistry_331B_log :
    (AddressRegistry_331B P t).log =
      t.log ++ [⟨Request.readInputRegisters 0x331B 2, (P.bus t.log (Request.readInputRegisters 0x331B 2)).result⟩] := by
  simp only [AddressRegistry_331B, record]
  split <;> rfl

@[simp] theorem AddressRegistry_331B_flag :
    (AddressRegistry_331B P t).rs485readSuccess =
      if (P.bus t.log (Request.readInputRegisters 0x331B 2)).result = ku8MBSuccess then t.rs485readSuccess
      else false := by
  simp only [AddressRegistry_331B, record]
  split <;> rfl

theorem AddressRegistry_331B_failed
    (h : (P.bus t.log (Request.readInputRegisters 0x331B 2)).result ≠ ku8MBSuccess) :
    (AddressRegistry_331B P t).toSolarTracer = t.toSolarTracer := by
  simp only [AddressRegistry_331B, record, h, if_false]

@[simp] theorem fetchAddressStatusVariables_log :
    (fetchAddressStatusVariables P t).log =
      t.log ++ [⟨Request.readInputRegisters 0x3200 3, (P.bus t.log (Request.readInputRegisters 0x3200 3)).result⟩] := by
  simp only [fetchAddressStatusVariables, record, MODBUS_ADDRESS_BATTERY_STATUS]
  split <;> rfl

@[simp] theorem fetchAddressStatusVariables_flag :
    (fetchAddressStatusVariables P t).rs485readSuccess =
      if (P.bus t.log (Request.readInputRegisters 0x3200 3)).result = ku8MBSuccess then t.rs485readSuccess
      else false := by
  simp only [fetchAddressStatusVariables, record, MODBUS_ADDRESS_BATTERY_STATUS]
  split <;> rfl

theorem fetchAddressStatusVariables_failed
    (h : (P.bus t.log (Request.readInputRegisters 0x3200 3)).result ≠ ku8MBSuccess) :
    (fetchAddressStatusVariables P t).toSolarTracer = t.toSolarTracer := by
  simp only [fetchAddressStatusVariables, record, MODBUS_ADDRESS_BATTERY_STATUS, h, if_false]

@[simp] theorem updateStats_log :
    (updateStats P t).log =
      t.log ++ [⟨Request.readInputRegisters 0x3300 29, (P.bus t.log (Request.readInputRegisters 0x3300 29)).result⟩] := by
  simp only [updateStats, record, MODBUS_ADDRESS_STAT_MAX_PV_VOLTAGE_TODAY]
  split <;> rfl

@[simp] theorem updateStats_flag :
    (updateStats P t).rs485readSuccess = t.rs485readSuccess := by
  simp only [updateStats, record, MODBUS_ADDRESS_STAT_MAX_PV_VOLTAGE_TODAY]
  split <;> rfl

theorem updateStats_failed
    (h : (P.bus t.log (Request.readInputRegisters 0x3300 29)).result ≠ ku8MBSuccess) :
    (updateStats P t).toSolarTracer = t.toSolarTracer := by
  simp only [updateStats, record, MODBUS_ADDRESS_STAT_MAX_PV_VOLTAGE_TODAY, h, if_false]

@[simp] theorem readControllerSingleCoil_log (a : Nat) :
    (readControllerSingleCoil P t a).2.log =
      t.log ++ [⟨Request.readCoils a 1, (P.bus t.log (Request.readCoils a 1)).result⟩] := by
  simp only [readControllerSingleCoil, record]
  split <;> rfl

@[simp] theorem readControllerSingleCoil_flag (a : Nat) :
    (readControllerSingleCoil P t a).2.rs485readSuccess =
      decide ((P.bus t.log (Request.readCoils a 1)).result = ku8MBSuccess) := by
  simp only [readControllerSingleCoil, record]
  split <;> rfl

theorem readControllerSingleCoil_telemetry (a : Nat) :
    (readControllerSingleCoil P t a).2.toSolarTracer = t.toSolarTracer := by
  simp only [readControllerSingleCoil, record]
  split <;> rfl

@[simp] theorem writeControllerSingleCoil_log (a : Nat) (b : Bool) :
    (writeControllerSingleCoil P t a b).2.log =
      t.log ++ [⟨Request.writeSingleCoil a b,
        (P.bus t.log (Request.writeSingleCoil a b)).result⟩] := by
  simp only [writeControllerSingleCoil, record]
  split <;> rfl

@[simp] theorem writeControllerSingleCoil_flag (a : Nat) (b : Bool) :
    (writeControllerSingleCoil P t a b).2.rs485readSuccess = t.rs485readSuccess := by
  simp only [writeControllerSingleCoil, record]
  split <;> rfl

@[simp] theorem syncRealtimeClock_flag (ti : Tm) :
    (syncRealtimeClock P t ti).2.rs485readSuccess = t.rs485readSuccess := by
  simp only [syncRealtimeClock, record]
  split <;> rfl

@[simp] theorem fetchValue_manual_log :
    (fetchValue P t .LOAD_MANUAL_ONOFF).2.log =
      t.log ++ [⟨Request.readCoils 2 1, (P.bus t.log (Request.readCoils 2 1)).result⟩] := by
  simp only [fetchValue, MODBUS_ADDRESS_LOAD_MANUAL_ONOFF]
  split <;> simp

@[simp] theorem fetchValue_manual_flag :
    (fetchValue P t .LOAD_MANUAL_ONOFF).2.rs485readSuccess =
      decide ((P.bus t.log (Request.readCoils 2 1)).result = ku8MBSuccess) := by
  simp only [fetchValue, MODBUS_ADDRESS_LOAD_MANUAL_ONOFF]
  split <;> simp

end effects

end EPEVER

namespace EPEVER

/-! ## The requests of a tick -/

theorem exchanges_of_log {t s : EPEVERSolarTracer} {xs : List Exchange}
    (h : s.log = t.log ++ xs) : exchanges t s = xs := by
  simp [exchanges, h]

theorem issued_of_log {t s : EPEVERSolarTracer} {xs : List Exchange}
    (h : s.log = t.log ++ xs) : issued t s = xs.map Exchange.request := by
  simp [issued, h]

/-- Every tick appends to the log, and the requests appended are those the
counters select. -/
theorem updateRun_log (P : Platform) (t : EPEVERSolarTracer) :
    ∃ xs, (updateRun P t).2.log = t.log ++ xs ∧
      xs.map Exchange.request =
        tickRequests (t.globalUpdateCounter, t.currentRealtimeUpdateCounter) := by
  unfold updateRun tickRequests
  by_cases hg : t.globalUpdateCounter = 360
  · simp [hg]
  · simp only [hg, if_false]
    unfold realtimeDispatch dispatchGroup
    split <;> simp_all

theorem updateRun_issued (P : Platform) (t : EPEVERSolarTracer) :
    issued t (updateRun P t).2 =
      tickRequests (t.globalUpdateCounter, t.currentRealtimeUpdateCounter) := by
  obtain ⟨xs, h1, h2⟩ := updateRun_log P t
  rw [issued_of_log h1, h2]

end EPEVER

namespace EPEVER

/-! ## The poll counters -/

theorem counterInv_step (s : Nat × Nat) (h : counterInv s) :
    counterInv (counterStep s) ∧ phase (counterStep s) = (phase s + 1) % 2161 := by
  obtain ⟨g, c⟩ := s
  simp only [counterInv] at h
  obtain ⟨h1, h2, h3⟩ := h
  have hw : (g + 1) % 65536 = g + 1 := by omega
  by_cases hg : g = 360
  · have hc : c = 5 := h3 hg
    subst hg hc
    simp [counterInv, counterStep, phase]
  · by_cases hc : c = 0
    · subst hc
      simp only [counterInv, counterStep, phase, hg, hw, if_false, if_true]
      refine ⟨⟨by omega, by omega, by simp⟩, ?_⟩
      split_ifs
      all_goals first | contradiction | omega
    · have hd : (c + 255) % 256 = c - 1 := by omega
      simp only [counterInv, counterStep, phase, hg, hc, hd, if_false]
      refine ⟨⟨h1, by omega, by simp⟩, ?_⟩
      split_ifs
      all_goals first | contradiction | omega

theorem counterInv_updateRun (P : Platform) (t : EPEVERSolarTracer)
    (h : counterInv (t.globalUpdateCounter, t.currentRealtimeUpdateCounter)) :
    counterInv ((updateRun P t).2.globalUpdateCounter,
      (updateRun P t).2.currentRealtimeUpdateCounter) := by
  rw [(updateRun_counters P t).1, (updateRun_counters P t).2]
  exact (counterInv_step _ h).1

theorem counterInv_of_isInitial (t : EPEVERSolarTracer) (h : isInitial t) :
    counterInv (t.globalUpdateCounter, t.currentRealtimeUpdateCounter) := by
  obtain ⟨h1, h2, _⟩ := h
  simp [counterInv, h1, h2]

theorem counterInv_of_reachable (t : EPEVERSolarTracer) (h : Reachable t) :
    counterInv (t.globalUpdateCounter, t.currentRealtimeUpdateCounter) := by
  induction h with
  | init t h => exact counterInv_of_isInitial t h
  | updateRun P t _ ih => exact counterInv_updateRun P t ih
  | fetchAllValues P t _ ih =>
    rw [(fetchAllValues_counters P t).1, (fetchAllValues_counters P t).2]
    exact ih
  | fetchValue P t v _ ih =>
    rw [(fetchValue_counters P t v).1, (fetchValue_counters P t v).2]
    exact ih
  | writeBoolValue P t v b _ ih =>
    rw [(writeBoolValue_counters P t v b).1, (writeBoolValue_counters P t v b).2]
    exact ih
  | syncRealtimeClock P t ti _ ih =>
    rw [(syncRealtimeClock_counters P t ti).1, (syncRealtimeClock_counters P t ti).2]
    exact ih

theorem isStatsRefresh_iff (P : Platform) (t : EPEVERSolarTracer) :
    isStatsRefresh P t ↔ t.globalUpdateCounter = 360 := by
  unfold isStatsRefresh
  rw [updateRun_issued]
  unfold tickRequests
  by_cases hg : t.globalUpdateCounter = 360
  · simp [hg]
  · simp only [hg, if_false, iff_false]
    unfold dispatchGroup
    split <;> simp

/-- C9: in every state reachable from the initial state by any sequence of
`updateRun`, `fetchAllValues`, `fetchValue`, `writeBoolValue` and
`syncRealtimeClock` calls under any bus behaviour, `globalUpdateCounter ≤ 360`; so
its increment never wraps the 16-bit counter, and at the value 360 the next tick
is a statistics refresh. -/
theorem globalUpdateCounter_le_360 (t : EPEVERSolarTracer) (h : Reachable t) :
    t.globalUpdateCounter ≤ 360 ∧
    (t.globalUpdateCounter + 1) % 65536 = t.globalUpdateCounter + 1 ∧
    (t.globalUpdateCounter = 360 → ∀ P, isStatsRefresh P t) := by
  have hi := (counterInv_of_reachable t h).1
  simp only at hi
  refine ⟨hi, by omega, ?_⟩
  intro hg P
  exact (isStatsRefresh_iff P t).2 hg

/-- C9, at a concrete input: after a tick, a full fetch and a coil write on a dead
bus the counter is within the bound. -/
theorem globalUpdateCounter_le_360_witness :
    (writeBoolValue deadBus (fetchAllValues deadBus (updateRun deadBus bootTracer).2)
      .LOAD_FORCE_ONOFF true).2.globalUpdateCounter ≤ 360 :=
  (globalUpdateCounter_le_360 _
    (Reachable.writeBoolValue _ _ _ _
      (Reachable.fetchAllValues _ _
        (Reachable.updateRun _ _ (Reachable.init bootTracer ⟨rfl, rfl, rfl⟩))))).1

/-! ## The statistics tick -/

/-- C10: a tick started with `globalUpdateCounter = 360` issues exactly one
transaction, the read of 29 input registers at 0x3300, resets
`globalUpdateCounter` to 0 and leaves `currentRealtimeUpdateCounter` unchanged; a
tick started with any other value issues no read at 0x3300, of any length. -/
theorem stats_tick (P : Platform) (t : EPEVERSolarTracer) :
    (t.globalUpdateCounter = 360 →
      issued t (updateRun P t).2 = [Request.readInputRegisters 0x3300 29] ∧
      (updateRun P t).2.globalUpdateCounter = 0 ∧
      (updateRun P t).2.currentRealtimeUpdateCounter = t.currentRealtimeUpdateCounter) ∧
    (t.globalUpdateCounter ≠ 360 →
      ∀ n, Request.readInputRegisters 0x3300 n ∉ issued t (updateRun P t).2) := by
  constructor
  · intro hg
    rw [updateRun_issued, (updateRun_counters P t).1, (updateRun_counters P t).2]
    simp [tickRequests, counterStep, hg]
  · intro hg n
    rw [updateRun_issued]
    simp only [tickRequests, hg, if_false]
    unfold dispatchGroup
    split <;> simp

/-- C10, at a concrete input: the tick of a driver at counters (360, 5) on a dead
bus reads block 0x3300 only and ends at counters (0, 5). -/
theorem stats_tick_witness :
    issued refreshTracer (updateRun deadBus refreshTracer).2 =
      [Request.readInputRegisters 0x3300 29] ∧
    (updateRun deadBus refreshTracer).2.globalUpdateCounter = 0 ∧
    (updateRun deadBus refreshTracer).2.currentRealtimeUpdateCounter = 5 :=
  (stats_tick deadBus refreshTracer).1 rfl

/-! ## The scheduler does not depend on the bus -/

/-- C7: the counters after a tick are a function of the counters before it: two
ticks started from the same counters, on any two buses and with any other state,
end with the same counters and issue the same requests in the same order; and in
every state, reachable or not, a tick changes at least one of the two counters. -/
theorem scheduler_ignores_bus (P Q : Platform) (t s : EPEVERSolarTracer)
    (hg : t.globalUpdateCounter = s.globalUpdateCounter)
    (hc : t.currentRealtimeUpdateCounter = s.currentRealtimeUpdateCounter) :
    (updateRun P t).2.globalUpdateCounter = (updateRun Q s).2.globalUpdateCounter ∧
    (updateRun P t).2.currentRealtimeUpdateCounter =
      (updateRun Q s).2.currentRealtimeUpdateCounter ∧
    issued t (updateRun P t).2 = issued s (updateRun Q s).2 ∧
    ((updateRun P t).2.globalUpdateCounter ≠ t.globalUpdateCounter ∨
      (updateRun P t).2.currentRealtimeUpdateCounter ≠ t.currentRealtimeUpdateCounter) := by
  refine ⟨?_, ?_, ?_, ?_⟩
  · rw [(updateRun_counters P t).1, (updateRun_counters Q s).1, hg, hc]
  · rw [(updateRun_counters P t).2, (updateRun_counters Q s).2, hg, hc]
  · rw [updateRun_issued, updateRun_issued, hg, hc]
  · rw [(updateRun_counters P t).1, (updateRun_counters P t).2]
    simp only [counterStep]
    split_ifs <;> simp_all <;> omega

/-- C7, at a concrete input: a tick on a dead bus and a tick on a working bus,
both from the initial counters, end with the same counters and requests. -/
theorem scheduler_ignores_bus_witness :
    (updateRun deadBus bootTracer).2.globalUpdateCounter =
      (updateRun (goodBus 7) flaggedTracer).2.globalUpdateCounter ∧
    (updateRun deadBus bootTracer).2.currentRealtimeUpdateCounter =
      (updateRun (goodBus 7) flaggedTracer).2.currentRealtimeUpdateCounter ∧
    issued bootTracer (updateRun deadBus bootTracer).2 =
      issued flaggedTracer (updateRun (goodBus 7) flaggedTracer).2 ∧
    ((updateRun deadBus bootTracer).2.globalUpdateCounter ≠ bootTracer.globalUpdateCounter ∨
      (updateRun deadBus bootTracer).2.currentRealtimeUpdateCounter ≠
        bootTracer.currentRealtimeUpdateCounter) :=
  scheduler_ignores_bus deadBus (goodBus 7) bootTracer flaggedTracer rfl rfl

end EPEVER

namespace EPEVER

/-! ## Runs of ticks -/

theorem runTicks_succ (P : Platform) (n : Nat) (t : EPEVERSolarTracer) :
    runTicks P (n + 1) t = (updateRun P (runTicks P n t)).2 := by
  induction n generalizing t with
  | zero => rfl
  | succ n ih =>
    show runTicks P (n + 1) (updateRun P t).2 = _
    rw [ih]
    rfl

theorem runTicks_phase (P : Platform) (t : EPEVERSolarTracer) (h : isInitial t) (n : Nat) :
    counterInv ((runTicks P n t).globalUpdateCounter,
        (runTicks P n t).currentRealtimeUpdateCounter) ∧
      phase ((runTicks P n t).globalUpdateCounter,
        (runTicks P n t).currentRealtimeUpdateCounter) = n % 2161 := by
  induction n with
  | zero =>
    refine ⟨counterInv_of_isInitial t h, ?_⟩
    obtain ⟨h1, h2, _⟩ := h
    simp [runTicks, phase, h1, h2]
  | succ n ih =>
    rw [runTicks_succ, (updateRun_counters P _).1, (updateRun_counters P _).2]
    obtain ⟨h1, h2⟩ := counterInv_step _ ih.1
    refine ⟨h1, ?_⟩
    rw [h2, ih.2]
    omega

theorem phase_stats (s : Nat × Nat) (h : counterInv s) : s.1 = 360 ↔ phase s = 2155 := by
  obtain ⟨g, c⟩ := s
  simp only [counterInv] at h
  obtain ⟨h1, h2, h3⟩ := h
  simp only [phase]
  constructor
  · intro hg
    have hc := h3 hg
    subst hg hc
    simp
  · intro hp
    split_ifs at hp <;> omega

/-- Tick `n + 1` of a run from the initial state is a statistics refresh exactly
when `n % 2161 = 2155`. -/
theorem statsRefresh_iff (P : Platform) (t : EPEVERSolarTracer) (h : isInitial t) (n : Nat) :
    isStatsRefresh P (runTicks P n t) ↔ n % 2161 = 2155 := by
  rw [isStatsRefresh_iff]
  obtain ⟨h1, h2⟩ := runTicks_phase P t h n
  rw [← h2]
  exact phase_stats _ h1

/-- C3 (amended): starting from the initial PollState and calling only
`updateRun`, the statistics refresh triggers exactly once per 2161 ticks (360
realtime cycles of six ticks, plus the refresh tick): with `runTicks P n t` the
state before tick `n + 1`, that tick is a refresh iff `n % 2161 = 2155`; the
refresh after a refresh is exactly 2161 ticks later, with none in between; and
every window of 2161 consecutive ticks contains exactly one refresh. -/
theorem stats_refresh_period (P : Platform) (t : EPEVERSolarTracer) (h : isInitial t) :
    (∀ n, isStatsRefresh P (runTicks P n t) ↔ n % 2161 = 2155) ∧
    (∀ n, isStatsRefresh P (runTicks P n t) →
      isStatsRefresh P (runTicks P (n + 2161) t) ∧
      ∀ k, n < k → k < n + 2161 → ¬ isStatsRefresh P (runTicks P k t)) ∧
    (∀ m, ∃! k, m ≤ k ∧ k < m + 2161 ∧ isStatsRefresh P (runTicks P k t)) := by
  have key := statsRefresh_iff P t h
  refine ⟨key, ?_, ?_⟩
  · intro n hn
    rw [key] at hn
    refine ⟨(key _).2 (by omega), ?_⟩
    intro k hk1 hk2 hk
    rw [key] at hk
    omega
  · intro m
    refine ⟨m + (2155 + 2161 - m % 2161) % 2161, ⟨by omega, by omega, (key _).2 (by omega)⟩, ?_⟩
    rintro k ⟨hk1, hk2, hk3⟩
    rw [key] at hk3
    omega

/-- C3, at a concrete input: on a dead bus from the boot state, tick 2156 is a
statistics refresh and so is tick 2156 + 2161. -/
theorem stats_refresh_period_witness :
    isStatsRefresh deadBus (runTicks deadBus 2155 bootTracer) ∧
    isStatsRefresh deadBus (runTicks deadBus (2155 + 2161) bootTracer) :=
  ⟨((stats_refresh_period deadBus bootTracer ⟨rfl, rfl, rfl⟩).1 2155).2 (by decide),
   ((stats_refresh_period deadBus bootTracer ⟨rfl, rfl, rfl⟩).1 (2155 + 2161)).2 (by decide)⟩

/-- C3 as stated fails: on a dead bus from the boot state none of the first 360
ticks is a statistics refresh, and the tick 360 after the first refresh is not a
refresh either. -/
theorem stats_refresh_not_every_360 :
    (¬ ∃ k, k < 360 ∧ isStatsRefresh deadBus (runTicks deadBus k bootTracer)) ∧
    isStatsRefresh deadBus (runTicks deadBus 2155 bootTracer) ∧
    ¬ isStatsRefresh deadBus (runTicks deadBus (2155 + 360) bootTracer) := by
  have key := statsRefresh_iff deadBus bootTracer ⟨rfl, rfl, rfl⟩
  refine ⟨?_, (key _).2 (by decide), ?_⟩
  · rintro ⟨k, hk, hs⟩
    rw [key] at hs
    omega
  · rw [key]
    decide

end EPEVER

namespace EPEVER

/-! ## Six realtime ticks -/

theorem updateRun_realtime (P : Platform) (t : EPEVERSolarTracer)
    (hg : t.globalUpdateCounter ≠ 360) :
    (updateRun P t).2.currentRealtimeUpdateCounter =
        realtimeStep t.currentRealtimeUpdateCounter ∧
      ∃ xs, (updateRun P t).2.log = t.log ++ xs ∧
        xs.map Exchange.request = dispatchGroup t.currentRealtimeUpdateCounter := by
  constructor
  · rw [(updateRun_counters P t).2]
    simp only [counterStep, realtimeStep, hg, if_false]
    split_ifs <;> rfl
  · obtain ⟨xs, h1, h2⟩ := updateRun_log P t
    refine ⟨xs, h1, ?_⟩
    rw [h2]
    simp only [tickRequests, hg, if_false]

/-- A run of `n` ticks without a statistics refresh: the realtime counter and the
requests issued follow `realtimeStep` and `realtimeSchedule`. -/
theorem runTicks_realtime (P : Platform) (n : Nat) (t : EPEVERSolarTracer)
    (h : ∀ k, k < n → (runTicks P k t).globalUpdateCounter ≠ 360) :
    (runTicks P n t).currentRealtimeUpdateCounter =
        realtimeStep^[n] t.currentRealtimeUpdateCounter ∧
      ∃ xs, (runTicks P n t).log = t.log ++ xs ∧
        xs.map Exchange.request = realtimeSchedule n t.currentRealtimeUpdateCounter := by
  induction n generalizing t with
  | zero => exact ⟨rfl, [], by simp [runTicks], rfl⟩
  | succ n ih =>
    have h0 : t.globalUpdateCounter ≠ 360 := h 0 (Nat.succ_pos n)
    obtain ⟨hc, xs, hx1, hx2⟩ := updateRun_realtime P t h0
    have hrest : ∀ k, k < n → (runTicks P k (updateRun P t).2).globalUpdateCounter ≠ 360 :=
      fun k hk => h (k + 1) (Nat.succ_lt_succ hk)
    obtain ⟨hc2, ys, hy1, hy2⟩ := ih (updateRun P t).2 hrest
    refine ⟨?_, xs ++ ys, ?_, ?_⟩
    · show (runTicks P n (updateRun P t).2).currentRealtimeUpdateCounter = _
      rw [hc2, hc, Function.iterate_succ_apply]
    · show (runTicks P n (updateRun P t).2).log = _
      rw [hy1, hx1, List.append_assoc]
    · rw [List.map_append, hx2, hy2, hc]
      rfl

/-- C2: from every reachable PollState, if none of the next six `updateRun` ticks
is a statistics refresh, then over those ticks the realtime counter takes each of
the values 0 to 5 once, every tick issues the requests of the dispatch group its
counter selects, each of the seven realtime input-register blocks (0x3100, 0x3106,
0x310D, 0x3110, 0x311A, 0x331B, 0x3200) is read exactly once, and
`currentRealtimeUpdateCounter` is back at its starting value after the six ticks
and not before. -/
theorem realtime_cycle (P : Platform) (t : EPEVERSolarTracer) (hr : Reachable t)
    (hns : ∀ k, k < 6 → ¬ isStatsRefresh P (runTicks P k t)) :
    List.Perm
      ((List.range 6).map fun k => (runTicks P k t).currentRealtimeUpdateCounter)
      [0, 1, 2, 3, 4, 5] ∧
    (∀ k, k < 6 → issued (runTicks P k t) (runTicks P (k + 1) t) =
      dispatchGroup (runTicks P k t).currentRealtimeUpdateCounter) ∧
    (∀ b ∈ realtimeBlocks, (issued t (runTicks P 6 t)).count b = 1) ∧
    (runTicks P 6 t).currentRealtimeUpdateCounter = t.currentRealtimeUpdateCounter ∧
    (∀ k, 0 < k → k < 6 →
      (runTicks P k t).currentRealtimeUpdateCounter ≠ t.currentRealtimeUpdateCounter) := by
  have hg : ∀ k, k < 6 → (runTicks P k t).globalUpdateCounter ≠ 360 :=
    fun k hk hk360 => hns k hk ((isStatsRefresh_iff P _).2 hk360)
  have hc5 : t.currentRealtimeUpdateCounter ≤ 5 := (counterInv_of_reachable t hr).2.1
  have hrun : ∀ n, n ≤ 6 →
      (runTicks P n t).currentRealtimeUpdateCounter =
        realtimeStep^[n] t.currentRealtimeUpdateCounter := fun n hn =>
    (runTicks_realtime P n t (fun k hk => hg k (by omega))).1
  obtain ⟨xs, hx1, hx2⟩ := (runTicks_realtime P 6 t hg).2
  refine ⟨?_, ?_, ?_, ?_, ?_⟩
  · simp only [List.range_succ, List.range_zero, List.nil_append, List.cons_append,
      List.map_cons, List.map_nil]
    rw [hrun 0 (by omega), hrun 1 (by omega), hrun 2 (by omega), hrun 3 (by omega),
      hrun 4 (by omega), hrun 5 (by omega)]
    generalize t.currentRealtimeUpdateCounter = c at hc5
    interval_cases c <;> decide
  · intro k hk
    rw [runTicks_succ]
    obtain ⟨ys, hy1, hy2⟩ := (updateRun_realtime P _ (hg k hk)).2
    rw [issued_of_log hy1, hy2]
  · intro b hb
    rw [issued_of_log hx1, hx2]
    generalize t.currentRealtimeUpdateCounter = c at hc5
    revert b
    interval_cases c <;> decide
  · rw [hrun 6 (by omega)]
    generalize t.currentRealtimeUpdateCounter = c at hc5
    interval_cases c <;> decide
  · intro k hk0 hk6
    rw [hrun k (by omega)]
    generalize t.currentRealtimeUpdateCounter = c at hc5
    interval_cases c <;> interval_cases k <;> decide

/-- C2, at a concrete input: six ticks from the boot state on a dead bus. -/
theorem realtime_cycle_witness :
    (runTicks deadBus 6 bootTracer).currentRealtimeUpdateCounter =
      bootTracer.currentRealtimeUpdateCounter :=
  (realtime_cycle deadBus bootTracer (Reachable.init bootTracer ⟨rfl, rfl, rfl⟩)
    (by
      intro k hk
      rw [isStatsRefresh_iff]
      interval_cases k <;> decide)).2.2.2.1

end EPEVER

namespace EPEVER

/-! ## Failed transactions leave the telemetry alone -/

theorem FailSafe.comp {f g : EPEVERSolarTracer → EPEVERSolarTracer}
    (hf : FailSafe f) (hg : FailSafe g) : FailSafe (fun t => g (f t)) := by
  intro t
  obtain ⟨xs, hx1, hx2⟩ := hf t
  obtain ⟨ys, hy1, hy2⟩ := hg (f t)
  refine ⟨xs ++ ys, ?_, ?_⟩
  · show (g (f t)).log = _
    rw [hy1, hx1, List.append_assoc]
  · intro h
    show (g (f t)).toSolarTracer = _
    rw [hy2 (fun e he => h e (List.mem_append_right xs he)),
      hx2 (fun e he => h e (List.mem_append_left ys he))]

theorem FailSafe.apply {f : EPEVERSolarTracer → EPEVERSolarTracer} (hf : FailSafe f)
    (t : EPEVERSolarTracer) (h : allFailed t (f t)) : (f t).toSolarTracer = t.toSolarTracer := by
  obtain ⟨xs, hx1, hx2⟩ := hf t
  apply hx2
  intro e he
  apply h
  rw [exchanges_of_log hx1]
  exact he

section failsafe
variable (P : Platform)

theorem failSafe_3100 : FailSafe (AddressRegistry_3100 P) := fun t =>
  ⟨_, AddressRegistry_3100_log P t, fun h =>
    AddressRegistry_3100_failed P t (h _ (List.mem_singleton.2 rfl))⟩

theorem failSafe_3106 : FailSafe (AddressRegistry_3106 P) := fun t =>
  ⟨_, AddressRegistry_3106_log P t, fun h =>
    AddressRegistry_3106_failed P t (h _ (List.mem_singleton.2 rfl))⟩

theorem failSafe_310D : FailSafe (AddressRegistry_310D P) := fun t =>
  ⟨_, AddressRegistry_310D_log P t, fun h =>
    AddressRegistry_310D_failed P t (h _ (List.mem_singleton.2 rfl))⟩

theorem failSafe_3110 : FailSafe (AddressRegistry_3110 P) := fun t =>
  ⟨_, AddressRegistry_3110_log P t, fun h =>
    AddressRegistry_3110_failed P t (h _ (List.mem_singleton.2 rfl))⟩

theorem failSafe_311A : FailSafe (AddressRegistry_311A P) := fun t =>
  ⟨_, AddressRegistry_311A_log P t, fun h =>
    AddressRegistry_311A_failed P t (h _ (List.mem_singleton.2 rfl))⟩

theorem failSafe_331B : FailSafe (AddressRegistry_331B P) := fun t =>
  ⟨_, AddressRegistry_331B_log P t, fun h =>
    AddressRegistry_331B_failed P t (h _ (List.mem_singleton.2 rfl))⟩

theorem failSafe_status : FailSafe (fetchAddressStatusVariables P) := fun t =>
  ⟨_, fetchAddressStatusVariables_log P t, fun h =>
    fetchAddressStatusVariables_failed P t (h _ (List.mem_singleton.2 rfl))⟩

theorem failSafe_stats : FailSafe (updateStats P) := fun t =>
  ⟨_, updateStats_log P t, fun h => updateStats_failed P t (h _ (List.mem_singleton.2 rfl))⟩

theorem failSafe_fetchValue (v : SolarTracerVariables) :
    FailSafe (fun t => (fetchValue P t v).2) := by
  intro t
  cases v with
  | OTHER n => exact ⟨[], by simp [fetchValue], fun _ => rfl⟩
  | LOAD_FORCE_ONOFF =>
    refine ⟨_, readControllerSingleCoil_log P t MODBUS_ADDRESS_LOAD_FORCE_ONOFF, fun _ => ?_⟩
    exact readControllerSingleCoil_telemetry P t _
  | LOAD_MANUAL_ONOFF =>
    refine ⟨[⟨Request.readCoils MODBUS_ADDRESS_LOAD_MANUAL_ONOFF 1,
      (P.bus t.log (Request.readCoils MODBUS_ADDRESS_LOAD_MANUAL_ONOFF 1)).result⟩], ?_, fun h => ?_⟩
    · simp only [fetchValue]
      split <;> exact readControllerSingleCoil_log P t _
    · have hf := h _ (List.mem_singleton.2 rfl)
      simp only at hf
      simp only [fetchValue, readControllerSingleCoil_flag, hf, decide_False,
        Bool.false_eq_true, if_false]
      exact readControllerSingleCoil_telemetry P t _
  | CHARGING_DEVICE_ONOFF =>
    refine ⟨[⟨Request.readCoils MODBUS_ADDRESS_BATTERY_CHARGE_ONOFF 1,
      (P.bus t.log (Request.readCoils MODBUS_ADDRESS_BATTERY_CHARGE_ONOFF 1)).result⟩], ?_, fun h => ?_⟩
    · simp only [fetchValue]
      split <;> exact readControllerSingleCoil_log P t _
    · have hf := h _ (List.mem_singleton.2 rfl)
      simp only at hf
      simp only [fetchValue, readControllerSingleCoil_flag, hf, decide_False,
        Bool.false_eq_true, if_false]
      exact readControllerSingleCoil_telemetry P t _

theorem failSafe_fetchAllValues : FailSafe (fetchAllValues P) :=
  ((((((((failSafe_stats P).comp (failSafe_3100 P)).comp (failSafe_3106 P)).comp
    (failSafe_310D P)).comp (failSafe_3110 P)).comp (failSafe_311A P)).comp
    (failSafe_331B P)).comp (failSafe_fetchValue P .LOAD_MANUAL_ONOFF)).comp
    (failSafe_status P)

theorem failSafe_realtimeDispatch : FailSafe (realtimeDispatch P) := by
  intro t
  unfold realtimeDispatch
  split
  · exact failSafe_3100 P _
  · exact failSafe_3106 P t
  · exact failSafe_310D P t
  · exact ((failSafe_3110 P).comp (failSafe_311A P)) t
  · exact failSafe_331B P t
  · exact (((failSafe_fetchValue P .LOAD_MANUAL_ONOFF).comp
      (failSafe_fetchValue P .LOAD_MANUAL_ONOFF)).comp (failSafe_status P)) t
  · exact ⟨[], by simp, fun _ => rfl⟩

theorem failSafe_updateRun : FailSafe (fun t => (updateRun P t).2) := by
  intro t
  unfold updateRun
  by_cases hg : t.globalUpdateCounter = 360
  · simp only [hg, if_true]
    exact failSafe_stats P t
  · simp only [hg, if_false]
    exact failSafe_realtimeDispatch P t

end failsafe

/-- C4: a failed transaction never mutates the telemetry snapshot. For every
block read (`AddressRegistry_3100`, `_3106`, `_310D`, `_3110`, `_311A`, `_331B`,
`fetchAddressStatusVariables`, `updateStats`), for `fetchValue` of every
identifier, for an `updateRun` tick and for `fetchAllValues`: if every
transaction the call issued reports failure, the whole snapshot (measurements,
status texts, statistics, `loadOnOff`, `chargingDeviceOnOff`) is the same after
the call as before it. -/
theorem failed_transaction_keeps_telemetry (P : Platform) (t : EPEVERSolarTracer) :
    (allFailed t (AddressRegistry_3100 P t) →
      (AddressRegistry_3100 P t).toSolarTracer = t.toSolarTracer) ∧
    (allFailed t (AddressRegistry_3106 P t) →
      (AddressRegistry_3106 P t).toSolarTracer = t.toSolarTracer) ∧
    (allFailed t (AddressRegistry_310D P t) →
      (AddressRegistry_310D P t).toSolarTracer = t.toSolarTracer) ∧
    (allFailed t (AddressRegistry_3110 P t) →
      (AddressRegistry_3110 P t).toSolarTracer = t.toSolarTracer) ∧
    (allFailed t (AddressRegistry_311A P t) →
      (AddressRegistry_311A P t).toSolarTracer = t.toSolarTracer) ∧
    (allFailed t (AddressRegistry_331B P t) →
      (AddressRegistry_331B P t).toSolarTracer = t.toSolarTracer) ∧
    (allFailed t (fetchAddressStatusVariables P t) →
      (fetchAddressStatusVariables P t).toSolarTracer = t.toSolarTracer) ∧
    (allFailed t (updateStats P t) →
      (updateStats P t).toSolarTracer = t.toSolarTracer) ∧
    (∀ v, allFailed t (fetchValue P t v).2 →
      (fetchValue P t v).2.toSolarTracer = t.toSolarTracer) ∧
    (allFailed t (updateRun P t).2 →
      (updateRun P t).2.toSolarTracer = t.toSolarTracer) ∧
    (allFailed t (fetchAllValues P t) →
      (fetchAllValues P t).toSolarTracer = t.toSolarTracer) :=
  ⟨(failSafe_3100 P).apply t, (failSafe_3106 P).apply t, (failSafe_310D P).apply t,
    (failSafe_3110 P).apply t, (failSafe_311A P).apply t, (failSafe_331B P).apply t,
    (failSafe_status P).apply t, (failSafe_stats P).apply t,
    fun v => (failSafe_fetchValue P v).apply t, (failSafe_updateRun P).apply t,
    (failSafe_fetchAllValues P).apply t⟩

end EPEVER

namespace EPEVER

/-- C4, at a concrete input: a tick and a full fetch on a dead bus leave the
telemetry of the boot state as it was. -/
theorem failed_transaction_keeps_telemetry_witness :
    (updateRun deadBus bootTracer).2.toSolarTracer = bootTracer.toSolarTracer ∧
    (fetchAllValues deadBus bootTracer).toSolarTracer = bootTracer.toSolarTracer :=
  ⟨(failed_transaction_keeps_telemetry deadBus bootTracer).2.2.2.2.2.2.2.2.2.1
      (by unfold allFailed; decide),
    (failed_transaction_keeps_telemetry deadBus bootTracer).2.2.2.2.2.2.2.2.2.2
      (by unfold allFailed; decide)⟩

/-! ## The flag `rs485readSuccess` -/

theorem updateRun_flag_of_allSucceeded (P : Platform) (t : EPEVERSolarTracer)
    (h : allSucceeded t (updateRun P t).2) :
    (updateRun P t).1 = true ↔
      (t.rs485readSuccess = true ∨
        (t.globalUpdateCounter ≠ 360 ∧ t.currentRealtimeUpdateCounter = 5)) := by
  unfold allSucceeded exchanges at h
  unfold updateRun at h ⊢
  by_cases hg : t.globalUpdateCounter = 360
  · simp [hg]
  · simp only [hg, if_false] at h ⊢
    unfold realtimeDispatch at h ⊢
    split at h <;> simp_all
    · obtain ⟨h1, h2⟩ := h
      rw [h1] at h2
      exact fun _ => h2
    · obtain ⟨h1, h2, h3⟩ := h
      rw [h1] at h2 h3
      exact ⟨h3, h2⟩

end EPEVER

namespace EPEVER

theorem allSucceeded_single {t s : EPEVERSolarTracer} {e : Exchange}
    (hlog : s.log = t.log ++ [e]) (h : allSucceeded t s) : e.result = ku8MBSuccess := by
  apply h
  rw [exchanges_of_log hlog]
  exact List.mem_singleton.2 rfl

/-- C6 (amended): the flag is cleared by a successful coil read only. After a
successful `readControllerSingleCoil` (so after a successful `fetchValue` of one
of the three coil identifiers) `rs485readSuccess` is true; a successful
input-register block read leaves the flag as it was, and so do a coil write and
the clock write, whatever their outcome; hence an `updateRun` tick all of whose
transactions succeed returns true iff the flag was true before the tick or the
tick is the load-manual-coil + status tick (`globalUpdateCounter ≠ 360` and
`currentRealtimeUpdateCounter = 5`). -/
theorem flag_cleared_by_coil_read_only (P : Platform) (t : EPEVERSolarTracer) :
    (∀ a, allSucceeded t (readControllerSingleCoil P t a).2 →
      (readControllerSingleCoil P t a).2.rs485readSuccess = true) ∧
    (∀ v, (∀ n, v ≠ .OTHER n) → allSucceeded t (fetchValue P t v).2 →
      (fetchValue P t v).2.rs485readSuccess = true) ∧
    (allSucceeded t (AddressRegistry_3100 P t) →
      (AddressRegistry_3100 P t).rs485readSuccess = t.rs485readSuccess) ∧
    (allSucceeded t (AddressRegistry_3106 P t) →
      (AddressRegistry_3106 P t).rs485readSuccess = t.rs485readSuccess) ∧
    (allSucceeded t (AddressRegistry_310D P t) →
      (AddressRegistry_310D P t).rs485readSuccess = t.rs485readSuccess) ∧
    (allSucceeded t (AddressRegistry_3110 P t) →
      (AddressRegistry_3110 P t).rs485readSuccess = t.rs485readSuccess) ∧
    (allSucceeded t (AddressRegistry_311A P t) →
      (AddressRegistry_311A P t).rs485readSuccess = t.rs485readSuccess) ∧
    (allSucceeded t (AddressRegistry_331B P t) →
      (AddressRegistry_331B P t).rs485readSuccess = t.rs485readSuccess) ∧
    (allSucceeded t (fetchAddressStatusVariables P t) →
      (fetchAddressStatusVariables P t).rs485readSuccess = t.rs485readSuccess) ∧
    (allSucceeded t (updateStats P t) →
      (updateStats P t).rs485readSuccess = t.rs485readSuccess) ∧
    (∀ a b, (writeControllerSingleCoil P t a b).2.rs485readSuccess = t.rs485readSuccess) ∧
    (∀ ti, (syncRealtimeClock P t ti).2.rs485readSuccess = t.rs485readSuccess) ∧
    (allSucceeded t (updateRun P t).2 →
      ((updateRun P t).1 = true ↔
        (t.rs485readSuccess = true ∨
          (t.globalUpdateCounter ≠ 360 ∧ t.currentRealtimeUpdateCounter = 5)))) := by
  refine ⟨?_, ?_, ?_, ?_, ?_, ?_, ?_, ?_, ?_, ?_, ?_, ?_, ?_⟩
  · intro a h
    have hr := allSucceeded_single (readControllerSingleCoil_log P t a) h
    simp only at hr
    rw [readControllerSingleCoil_flag, hr]
    rfl
  · intro v hv h
    cases v with
    | OTHER n => exact absurd rfl (hv n)
    | LOAD_FORCE_ONOFF =>
      have hr := allSucceeded_single
        (readControllerSingleCoil_log P t MODBUS_ADDRESS_LOAD_FORCE_ONOFF) h
      simp only at hr
      simp only [fetchValue, readControllerSingleCoil_flag, hr, decide_True]
    | LOAD_MANUAL_ONOFF =>
      have hr := allSucceeded_single (fetchValue_manual_log P t) h
      simp only at hr
      rw [fetchValue_manual_flag, hr]
      rfl
    | CHARGING_DEVICE_ONOFF =>
      have hl : (fetchValue P t .CHARGING_DEVICE_ONOFF).2.log = t.log ++
          [⟨Request.readCoils MODBUS_ADDRESS_BATTERY_CHARGE_ONOFF 1,
            (P.bus t.log (Request.readCoils MODBUS_ADDRESS_BATTERY_CHARGE_ONOFF 1)).result⟩] := by
        simp only [fetchValue]
        split <;> exact readControllerSingleCoil_log P t _
      have hr := allSucceeded_single hl h
      simp only at hr
      simp only [fetchValue, readControllerSingleCoil_flag, hr, decide_True, if_true]
  · intro _
    exact AddressRegistry_3100_flag P t
  · intro _
    exact AddressRegistry_3106_flag P t
  · intro h
    have hr := allSucceeded_single (AddressRegistry_310D_log P t) h
    simp only at hr
    rw [AddressRegistry_310D_flag, if_pos hr]
  · intro h
    have hr := allSucceeded_single (AddressRegistry_3110_log P t) h
    simp only at hr
    rw [AddressRegistry_3110_flag, if_pos hr]
  · intro h
    have hr := allSucceeded_single (AddressRegistry_311A_log P t) h
    simp only at hr
    rw [AddressRegistry_311A_flag, if_pos hr]
  · intro h
    have hr := allSucceeded_single (AddressRegistry_331B_log P t) h
    simp only at hr
    rw [AddressRegistry_331B_flag, if_pos hr]
  · intro h
    have hr := allSucceeded_single (fetchAddressStatusVariables_log P t) h
    simp only at hr
    rw [fetchAddressStatusVariables_flag, if_pos hr]
  · intro _
    exact updateStats_flag P t
  · intro a b
    exact writeControllerSingleCoil_flag P t a b
  · intro ti
    exact syncRealtimeClock_flag P t ti
  · exact updateRun_flag_of_allSucceeded P t

/-- C6, at a concrete input: on a working bus, the coil + status tick of a driver
whose flag is false returns true. -/
theorem flag_cleared_by_coil_read_only_witness :
    (updateRun (goodBus 1) { bootTracer with currentRealtimeUpdateCounter := 5 }).1 = true :=
  ((flag_cleared_by_coil_read_only (goodBus 1)
      { bootTracer with currentRealtimeUpdateCounter := 5 }).2.2.2.2.2.2.2.2.2.2.2.2
    (by unfold allSucceeded; decide)).2 (Or.inr ⟨by decide, rfl⟩)

/-- C6 as stated fails: on a working bus the read of block 0x3100 succeeds and
leaves `rs485readSuccess` false, and the first tick from the boot state, whose
only transaction succeeds, returns false. -/
theorem successful_read_keeps_flag_false :
    allSucceeded bootTracer (AddressRegistry_3100 (goodBus 0) bootTracer) ∧
    (AddressRegistry_3100 (goodBus 0) bootTracer).rs485readSuccess = false ∧
    exchanges bootTracer (updateRun (goodBus 0) bootTracer).2 =
      [⟨Request.readInputRegisters 0x3100 6, ku8MBSuccess⟩] ∧
    (updateRun (goodBus 0) bootTracer).1 = false := by
  refine ⟨?_, ?_, ?_, ?_⟩
  · unfold allSucceeded
    decide
  · rw [AddressRegistry_3100_flag]
    rfl
  · decide
  · have h : (updateRun (goodBus 0) bootTracer).1 =
        (AddressRegistry_3100 (goodBus 0)
          { bootTracer with globalUpdateCounter := 1, currentRealtimeUpdateCounter := 6 }
          ).rs485readSuccess := rfl
    rw [h, AddressRegistry_3100_flag]
    rfl

/-! ## Read failures that do not reach the flag -/

/-- C5, evaluated on the code: with `rs485readSuccess` true and a dead bus, the
failed reads of blocks 0x3100, 0x3106 and 0x3300 leave the flag true, and the
first tick, whose only read (block 0x3100) fails, returns true; the failed read
of block 0x310D, which has the `else` branch, sets the flag false. -/
theorem failed_read_leaves_flag_true :
    allFailed flaggedTracer (AddressRegistry_3100 deadBus flaggedTracer) ∧
    (AddressRegistry_3100 deadBus flaggedTracer).rs485readSuccess = true ∧
    (AddressRegistry_3106 deadBus flaggedTracer).rs485readSuccess = true ∧
    (updateStats deadBus flaggedTracer).rs485readSuccess = true ∧
    exchanges flaggedTracer (updateRun deadBus flaggedTracer).2 =
      [⟨Request.readInputRegisters 0x3100 6, 0xE2⟩] ∧
    (updateRun deadBus flaggedTracer).1 = true ∧
    (AddressRegistry_310D deadBus flaggedTracer).rs485readSuccess = false := by
  refine ⟨?_, ?_, ?_, ?_, ?_, ?_, ?_⟩
  · unfold allFailed
    decide
  · rw [AddressRegistry_3100_flag]
    rfl
  · rw [AddressRegistry_3106_flag]
    rfl
  · rw [updateStats_flag]
    rfl
  · decide
  · rfl
  · rfl

end EPEVER

namespace EPEVER

/-! ## The full fetch -/

theorem fetchAllValues_log (P : Platform) (t : EPEVERSolarTracer) :
    ∃ xs, (fetchAllValues P t).log = t.log ++ xs ∧
      xs.map Exchange.request = fetchAllRequests := by
  unfold fetchAllValues fetchAllRequests
  simp

/-- C20: whatever the PollState and whatever the bus answers, `fetchAllValues`
issues exactly the reads of block 0x3300 (29 words), 0x3100 (6), 0x3106 (2),
0x310D (3), 0x3110 (2), 0x311A (2), 0x331B (2), the load-manual coil 0x0002 and
the status block 0x3200 (3), in that order and each once, and it leaves
`globalUpdateCounter` and `currentRealtimeUpdateCounter` unchanged. -/
theorem fetchAllValues_requests (P : Platform) (t : EPEVERSolarTracer) :
    issued t (fetchAllValues P t) =
      [.readInputRegisters 0x3300 29, .readInputRegisters 0x3100 6,
       .readInputRegisters 0x3106 2, .readInputRegisters 0x310D 3,
       .readInputRegisters 0x3110 2, .readInputRegisters 0x311A 2,
       .readInputRegisters 0x331B 2, .readCoils 0x0002 1, .readInputRegisters 0x3200 3] ∧
    (issued t (fetchAllValues P t)).Nodup ∧
    (fetchAllValues P t).globalUpdateCounter = t.globalUpdateCounter ∧
    (fetchAllValues P t).currentRealtimeUpdateCounter = t.currentRealtimeUpdateCounter := by
  obtain ⟨xs, h1, h2⟩ := fetchAllValues_log P t
  have h : issued t (fetchAllValues P t) = fetchAllRequests := by
    rw [issued_of_log h1, h2]
  refine ⟨h, ?_, (fetchAllValues_counters P t).1, (fetchAllValues_counters P t).2⟩
  rw [h]
  decide

/-- C20, at a concrete input: a full fetch from the refresh state (counters 360
and 5) on a dead bus issues nine requests and keeps the counters. -/
theorem fetchAllValues_requests_witness :
    (issued refreshTracer (fetchAllValues deadBus refreshTracer)).length = 9 ∧
    (fetchAllValues deadBus refreshTracer).globalUpdateCounter = 360 ∧
    (fetchAllValues deadBus refreshTracer).currentRealtimeUpdateCounter = 5 := by
  have h := fetchAllValues_requests deadBus refreshTracer
  exact ⟨by rw [h.1]; rfl, h.2.2.1, h.2.2.2⟩

/-! ## The variable interface -/

/-- C14: for every identifier other than `LOAD_FORCE_ONOFF`, `LOAD_MANUAL_ONOFF`
and `CHARGING_DEVICE_ONOFF`, `fetchValue` and `writeBoolValue` return false, issue
no transaction and return the driver as it was: snapshot, `rs485readSuccess` and
both poll counters unchanged. -/
theorem unknown_identifier_untouched (P : Platform) (t : EPEVERSolarTracer)
    (id : SolarTracerVariables) (v : Bool)
    (h1 : id ≠ .LOAD_FORCE_ONOFF) (h2 : id ≠ .LOAD_MANUAL_ONOFF)
    (h3 : id ≠ .CHARGING_DEVICE_ONOFF) :
    (fetchValue P t id).1 = false ∧ (fetchValue P t id).2 = t ∧
    issued t (fetchValue P t id).2 = [] ∧
    (writeBoolValue P t id v).1 = false ∧ (writeBoolValue P t id v).2 = t ∧
    issued t (writeBoolValue P t id v).2 = [] := by
  cases id with
  | LOAD_FORCE_ONOFF => exact absurd rfl h1
  | LOAD_MANUAL_ONOFF => exact absurd rfl h2
  | CHARGING_DEVICE_ONOFF => exact absurd rfl h3
  | OTHER n =>
    refine ⟨rfl, rfl, ?_, rfl, rfl, ?_⟩
    · simp [fetchValue, issued]
    · simp [writeBoolValue, issued]

/-- C14, at a concrete input: identifier number 7 on a working bus. -/
theorem unknown_identifier_untouched_witness :
    (fetchValue (goodBus 1) flaggedTracer (.OTHER 7)).1 = false ∧
    (fetchValue (goodBus 1) flaggedTracer (.OTHER 7)).2 = flaggedTracer ∧
    issued flaggedTracer (fetchValue (goodBus 1) flaggedTracer (.OTHER 7)).2 = [] ∧
    (writeBoolValue (goodBus 1) flaggedTracer (.OTHER 7) true).1 = false ∧
    (writeBoolValue (goodBus 1) flaggedTracer (.OTHER 7) true).2 = flaggedTracer ∧
    issued flaggedTracer (writeBoolValue (goodBus 1) flaggedTracer (.OTHER 7) true).2 = [] :=
  unknown_identifier_untouched (goodBus 1) flaggedTracer (.OTHER 7) true
    (by decide) (by decide) (by decide)

theorem readControllerSingleCoil_issued (P : Platform) (t : EPEVERSolarTracer) (a : Nat) :
    issued t (readControllerSingleCoil P t a).2 = [.readCoils a 1] := by
  rw [issued_of_log (readControllerSingleCoil_log P t a)]
  rfl

theorem writeControllerSingleCoil_issued (P : Platform) (t : EPEVERSolarTracer) (a : Nat)
    (v : Bool) : issued t (writeControllerSingleCoil P t a v).2 = [.writeSingleCoil a v] := by
  rw [issued_of_log (writeControllerSingleCoil_log P t a v)]
  rfl

theorem writeControllerSingleCoil_result (P : Platform) (t : EPEVERSolarTracer) (a : Nat)
    (v : Bool) : (writeControllerSingleCoil P t a v).1 = true ↔
      (reply P t (.writeSingleCoil a v)).result = ku8MBSuccess := by
  simp only [writeControllerSingleCoil, reply]
  split <;> simp_all

theorem fetchValue_coil (P : Platform) (t : EPEVERSolarTracer) (id : SolarTracerVariables)
    (a : Nat)
    (h : (id = .LOAD_FORCE_ONOFF ∧ a = 6) ∨ (id = .LOAD_MANUAL_ONOFF ∧ a = 2) ∨
      (id = .CHARGING_DEVICE_ONOFF ∧ a = 0)) :
    (fetchValue P t id).2.log =
        t.log ++ [⟨.readCoils a 1, (P.bus t.log (.readCoils a 1)).result⟩] ∧
      (fetchValue P t id).2.rs485readSuccess =
        decide ((P.bus t.log (.readCoils a 1)).result = ku8MBSuccess) ∧
      (fetchValue P t id).1 = (fetchValue P t id).2.rs485readSuccess := by
  rcases h with ⟨rfl, rfl⟩ | ⟨rfl, rfl⟩ | ⟨rfl, rfl⟩
  · simp [fetchValue, MODBUS_ADDRESS_LOAD_FORCE_ONOFF]
  · simp only [fetchValue, MODBUS_ADDRESS_LOAD_MANUAL_ONOFF]
    split <;> simp_all
  · simp only [fetchValue, MODBUS_ADDRESS_BATTERY_CHARGE_ONOFF]
    split <;> simp_all

end EPEVER

namespace EPEVER

theorem coil_both_directions (P : Platform) (t : EPEVERSolarTracer) (id : SolarTracerVariables)
    (a : Nat) (v : Bool)
    (h : (id = .LOAD_FORCE_ONOFF ∧ a = 6) ∨ (id = .LOAD_MANUAL_ONOFF ∧ a = 2) ∨
      (id = .CHARGING_DEVICE_ONOFF ∧ a = 0)) :
    issued t (fetchValue P t id).2 = [.readCoils a 1] ∧
    ((fetchValue P t id).1 = true ↔ (reply P t (.readCoils a 1)).result = ku8MBSuccess) ∧
    issued t (writeBoolValue P t id v).2 = [.writeSingleCoil a v] ∧
    ((writeBoolValue P t id v).1 = true ↔
      (reply P t (.writeSingleCoil a v)).result = ku8MBSuccess) := by
  obtain ⟨hlog, hflag, hret⟩ := fetchValue_coil P t id a h
  refine ⟨?_, ?_, ?_, ?_⟩
  · rw [issued_of_log hlog]
    rfl
  · rw [hret, hflag]
    simp [reply]
  · rcases h with ⟨rfl, rfl⟩ | ⟨rfl, rfl⟩ | ⟨rfl, rfl⟩ <;>
      exact writeControllerSingleCoil_issued P t _ v
  · rcases h with ⟨rfl, rfl⟩ | ⟨rfl, rfl⟩ | ⟨rfl, rfl⟩ <;>
      exact writeControllerSingleCoil_result P t _ v

/-- C15: each boolean identifier maps to one fixed coil address used by both
directions: `fetchValue` issues exactly one read-coils transaction of 1 bit and
`writeBoolValue` exactly one write-single-coil transaction carrying `v`, both at
0x0006 for `LOAD_FORCE_ONOFF`, 0x0002 for `LOAD_MANUAL_ONOFF` and 0x0000 for
`CHARGING_DEVICE_ONOFF`; `fetchValue` returns true iff its read succeeded and
`writeBoolValue` returns true iff its write succeeded. -/
theorem coil_mapping (P : Platform) (t : EPEVERSolarTracer) (v : Bool) :
    (issued t (fetchValue P t .LOAD_FORCE_ONOFF).2 = [.readCoils 0x0006 1] ∧
      ((fetchValue P t .LOAD_FORCE_ONOFF).1 = true ↔
        (reply P t (.readCoils 0x0006 1)).result = ku8MBSuccess) ∧
      issued t (writeBoolValue P t .LOAD_FORCE_ONOFF v).2 = [.writeSingleCoil 0x0006 v] ∧
      ((writeBoolValue P t .LOAD_FORCE_ONOFF v).1 = true ↔
        (reply P t (.writeSingleCoil 0x0006 v)).result = ku8MBSuccess)) ∧
    (issued t (fetchValue P t .LOAD_MANUAL_ONOFF).2 = [.readCoils 0x0002 1] ∧
      ((fetchValue P t .LOAD_MANUAL_ONOFF).1 = true ↔
        (reply P t (.readCoils 0x0002 1)).result = ku8MBSuccess) ∧
      issued t (writeBoolValue P t .LOAD_MANUAL_ONOFF v).2 = [.writeSingleCoil 0x0002 v] ∧
      ((writeBoolValue P t .LOAD_MANUAL_ONOFF v).1 = true ↔
        (reply P t (.writeSingleCoil 0x0002 v)).result = ku8MBSuccess)) ∧
    (issued t (fetchValue P t .CHARGING_DEVICE_ONOFF).2 = [.readCoils 0x0000 1] ∧
      ((fetchValue P t .CHARGING_DEVICE_ONOFF).1 = true ↔
        (reply P t (.readCoils 0x0000 1)).result = ku8MBSuccess) ∧
      issued t (writeBoolValue P t .CHARGING_DEVICE_ONOFF v).2 =
        [.writeSingleCoil 0x0000 v] ∧
      ((writeBoolValue P t .CHARGING_DEVICE_ONOFF v).1 = true ↔
        (reply P t (.writeSingleCoil 0x0000 v)).result = ku8MBSuccess)) :=
  ⟨coil_both_directions P t _ 6 v (Or.inl ⟨rfl, rfl⟩),
    coil_both_directions P t _ 2 v (Or.inr (Or.inl ⟨rfl, rfl⟩)),
    coil_both_directions P t _ 0 v (Or.inr (Or.inr ⟨rfl, rfl⟩))⟩

/-- C15, at a concrete input: on a working bus both directions of
`LOAD_FORCE_ONOFF` return true, on a dead bus both return false. -/
theorem coil_mapping_witness :
    (fetchValue (goodBus 1) bootTracer .LOAD_FORCE_ONOFF).1 = true ∧
    (writeBoolValue (goodBus 1) bootTracer .LOAD_FORCE_ONOFF true).1 = true ∧
    ¬ (fetchValue deadBus bootTracer .LOAD_FORCE_ONOFF).1 = true ∧
    ¬ (writeBoolValue deadBus bootTracer .LOAD_FORCE_ONOFF true).1 = true :=
  ⟨(coil_mapping (goodBus 1) bootTracer true).1.2.1.2 rfl,
    (coil_mapping (goodBus 1) bootTracer true).1.2.2.2.2 rfl,
    fun h => absurd ((coil_mapping deadBus bootTracer true).1.2.1.1 h) (by decide),
    fun h => absurd ((coil_mapping deadBus bootTracer true).1.2.2.2.1 h) (by decide)⟩

/-! ## What a coil read caches, and what a coil write does not -/

theorem writeControllerSingleCoil_telemetry (P : Platform) (t : EPEVERSolarTracer) (a : Nat)
    (v : Bool) : (writeControllerSingleCoil P t a v).2.toSolarTracer = t.toSolarTracer := by
  simp only [writeControllerSingleCoil, record]
  split <;> rfl

theorem readControllerSingleCoil_value (P : Platform) (t : EPEVERSolarTracer) (a : Nat)
    (h : (P.bus t.log (.readCoils a 1)).result = ku8MBSuccess) :
    (readControllerSingleCoil P t a).1 =
      decide (getResponseBuffer (P.bus t.log (.readCoils a 1)) 0 > 0) := by
  simp [readControllerSingleCoil, h]

/-- C12 (amended): for `LOAD_MANUAL_ONOFF` and `CHARGING_DEVICE_ONOFF`, after a
successful `fetchValue` the snapshot field cached for the identifier (`loadOnOff`,
`chargingDeviceOnOff`) equals the coil value returned by the bus (response word 0
is greater than 0); a `writeBoolValue`, of any identifier and successful or not,
leaves every snapshot field as it was. -/
theorem fetch_caches_write_does_not (P : Platform) (t : EPEVERSolarTracer) :
    ((fetchValue P t .LOAD_MANUAL_ONOFF).1 = true →
      (fetchValue P t .LOAD_MANUAL_ONOFF).2.loadOnOff =
        decide (getResponseBuffer (reply P t (.readCoils 0x0002 1)) 0 > 0)) ∧
    ((fetchValue P t .CHARGING_DEVICE_ONOFF).1 = true →
      (fetchValue P t .CHARGING_DEVICE_ONOFF).2.chargingDeviceOnOff =
        decide (getResponseBuffer (reply P t (.readCoils 0x0000 1)) 0 > 0)) ∧
    (∀ id v, (writeBoolValue P t id v).2.toSolarTracer = t.toSolarTracer) := by
  refine ⟨?_, ?_, ?_⟩
  · intro h
    have hok := ((coil_both_directions P t _ 2 true (Or.inr (Or.inl ⟨rfl, rfl⟩))).2.1).1 h
    simp only [reply] at hok ⊢
    simp only [fetchValue, MODBUS_ADDRESS_LOAD_MANUAL_ONOFF, readControllerSingleCoil_flag,
      hok, decide_True, if_true]
    exact readControllerSingleCoil_value P t 2 hok
  · intro h
    have hok := ((coil_both_directions P t _ 0 true (Or.inr (Or.inr ⟨rfl, rfl⟩))).2.1).1 h
    simp only [reply] at hok ⊢
    simp only [fetchValue, MODBUS_ADDRESS_BATTERY_CHARGE_ONOFF, readControllerSingleCoil_flag,
      hok, decide_True, if_true]
    exact readControllerSingleCoil_value P t 0 hok
  · intro id v
    cases id <;> simp only [writeBoolValue] <;>
      exact writeControllerSingleCoil_telemetry P t _ v

/-- C12, at a concrete input: a read of the load-manual coil answered with 1 sets
`loadOnOff`, and a later successful write of `false` leaves it set. -/
theorem fetch_caches_write_does_not_witness :
    (fetchValue (goodBus 1) bootTracer .LOAD_MANUAL_ONOFF).2.loadOnOff = true ∧
    (writeBoolValue (goodBus 1) (fetchValue (goodBus 1) bootTracer .LOAD_MANUAL_ONOFF).2
      .LOAD_MANUAL_ONOFF false).2.loadOnOff = true := by
  have h1 := (fetch_caches_write_does_not (goodBus 1) bootTracer).1 rfl
  have h2 := (fetch_caches_write_does_not (goodBus 1)
    (fetchValue (goodBus 1) bootTracer .LOAD_MANUAL_ONOFF).2).2.2 .LOAD_MANUAL_ONOFF false
  have h3 : (fetchValue (goodBus 1) bootTracer .LOAD_MANUAL_ONOFF).2.loadOnOff = true := by
    rw [h1]
    rfl
  refine ⟨h3, ?_⟩
  have h4 := congrArg SolarTracer.loadOnOff h2
  exact h4.trans h3

/-- C12 as stated fails: on a working bus `writeBoolValue(LOAD_MANUAL_ONOFF, true)`
succeeds and the cached `loadOnOff` is still false. -/
theorem successful_write_not_cached :
    (writeBoolValue (goodBus 0) bootTracer .LOAD_MANUAL_ONOFF true).1 = true ∧
    (writeBoolValue (goodBus 0) bootTracer .LOAD_MANUAL_ONOFF true).2.loadOnOff = false ∧
    (writeBoolValue (goodBus 0) bootTracer .CHARGING_DEVICE_ONOFF true).1 = true ∧
    (writeBoolValue (goodBus 0) bootTracer .CHARGING_DEVICE_ONOFF true).2.chargingDeviceOnOff =
      false :=
  ⟨rfl, rfl, rfl, rfl⟩

end EPEVER

namespace EPEVER

/-! ## Round trip over the simulated slave -/

theorem coilState_after_write (log : List Exchange) (a : Nat) (v : Bool) :
    coilState (log ++ [⟨.writeSingleCoil a v, ku8MBSuccess⟩]) a = v := by
  simp [coilState, List.foldl_append]

/-- On the simulated slave, a coil write followed by a read of the same coil
returns true both times and the read yields the value written; for
`LOAD_MANUAL_ONOFF` and `CHARGING_DEVICE_ONOFF` that value is the one cached. -/
theorem coil_round_trip (t : EPEVERSolarTracer) (v : Bool) :
    ((writeBoolValue echoBus t .LOAD_MANUAL_ONOFF v).1 = true ∧
      (fetchValue echoBus (writeBoolValue echoBus t .LOAD_MANUAL_ONOFF v).2
        .LOAD_MANUAL_ONOFF).1 = true ∧
      (fetchValue echoBus (writeBoolValue echoBus t .LOAD_MANUAL_ONOFF v).2
        .LOAD_MANUAL_ONOFF).2.loadOnOff = v) ∧
    ((writeBoolValue echoBus t .CHARGING_DEVICE_ONOFF v).1 = true ∧
      (fetchValue echoBus (writeBoolValue echoBus t .CHARGING_DEVICE_ONOFF v).2
        .CHARGING_DEVICE_ONOFF).1 = true ∧
      (fetchValue echoBus (writeBoolValue echoBus t .CHARGING_DEVICE_ONOFF v).2
        .CHARGING_DEVICE_ONOFF).2.chargingDeviceOnOff = v) ∧
    ((writeBoolValue echoBus t .LOAD_FORCE_ONOFF v).1 = true ∧
      (fetchValue echoBus (writeBoolValue echoBus t .LOAD_FORCE_ONOFF v).2
        .LOAD_FORCE_ONOFF).1 = true ∧
      (readControllerSingleCoil echoBus (writeBoolValue echoBus t .LOAD_FORCE_ONOFF v).2
        MODBUS_ADDRESS_LOAD_FORCE_ONOFF).1 = v) := by
  refine ⟨⟨?_, ?_, ?_⟩, ⟨?_, ?_, ?_⟩, ⟨?_, ?_, ?_⟩⟩ <;>
    cases v <;>
    simp [writeBoolValue, writeControllerSingleCoil, fetchValue, readControllerSingleCoil,
      record, echoBus, ku8MBSuccess, getResponseBuffer, coilState, List.foldl_append,
      MODBUS_ADDRESS_LOAD_MANUAL_ONOFF, MODBUS_ADDRESS_BATTERY_CHARGE_ONOFF,
      MODBUS_ADDRESS_LOAD_FORCE_ONOFF]

/-- C13, evaluated on the code: on the simulated slave the round trip of
`LOAD_FORCE_ONOFF` succeeds in both directions and the coil read yields true, yet
the snapshot after it is the snapshot before the write: the value read back is
recorded nowhere. The same round trip of `LOAD_MANUAL_ONOFF` records true in
`loadOnOff`. -/
theorem force_coil_read_not_recorded :
    (writeBoolValue echoBus bootTracer .LOAD_FORCE_ONOFF true).1 = true ∧
    (fetchValue echoBus (writeBoolValue echoBus bootTracer .LOAD_FORCE_ONOFF true).2
      .LOAD_FORCE_ONOFF).1 = true ∧
    (readControllerSingleCoil echoBus (writeBoolValue echoBus bootTracer .LOAD_FORCE_ONOFF true).2
      MODBUS_ADDRESS_LOAD_FORCE_ONOFF).1 = true ∧
    (fetchValue echoBus (writeBoolValue echoBus bootTracer .LOAD_FORCE_ONOFF true).2
      .LOAD_FORCE_ONOFF).2.toSolarTracer = bootTracer.toSolarTracer ∧
    (fetchValue echoBus (writeBoolValue echoBus bootTracer .LOAD_MANUAL_ONOFF true).2
      .LOAD_MANUAL_ONOFF).2.loadOnOff = true := by
  refine ⟨rfl, rfl, rfl, ?_, rfl⟩
  rfl

/-! ## The coil + status tick -/

theorem reachable_coilTickTracer : Reachable coilTickTracer :=
  Reachable.updateRun deadBus bootTracer (Reachable.init bootTracer ⟨rfl, rfl, rfl⟩)

/-- C11, evaluated on the code: the driver after its first tick is reachable, its
counters are (1, 5), its next tick is not a statistics refresh, and on a working
bus that tick issues three read transactions, the load-manual coil being read
twice before the status block; `fetchAllValues` reads that coil once. -/
theorem coil_tick_issues_three_reads :
    Reachable coilTickTracer ∧
    coilTickTracer.globalUpdateCounter = 1 ∧
    coilTickTracer.currentRealtimeUpdateCounter = 5 ∧
    ¬ isStatsRefresh (goodBus 0) coilTickTracer ∧
    issued coilTickTracer (updateRun (goodBus 0) coilTickTracer).2 =
      [.readCoils 0x0002 1, .readCoils 0x0002 1, .readInputRegisters 0x3200 3] ∧
    (issued coilTickTracer (updateRun (goodBus 0) coilTickTracer).2).length = 3 ∧
    (issued coilTickTracer (fetchAllValues (goodBus 0) coilTickTracer)).count
      (.readCoils 0x0002 1) = 1 := by
  have h : issued coilTickTracer (updateRun (goodBus 0) coilTickTracer).2 =
      [.readCoils 0x0002 1, .readCoils 0x0002 1, .readInputRegisters 0x3200 3] := by
    rw [updateRun_issued]
    rfl
  refine ⟨reachable_coilTickTracer, rfl, rfl, ?_, h, by rw [h]; rfl, ?_⟩
  · rw [isStatsRefresh_iff]
    decide
  · obtain ⟨xs, h1, h2⟩ := fetchAllValues_log (goodBus 0) coilTickTracer
    rw [issued_of_log h1, h2]
    decide

end EPEVER

namespace EPEVER

/-! ## Masks and bits -/

theorem and_bit (w k m : Nat) (hm : m = 2 ^ k) : w &&& m ≠ 0 ↔ w.testBit k = true := by
  subst hm
  constructor
  · intro h
    by_contra hb
    apply h
    apply Nat.eq_of_testBit_eq
    intro i
    simp only [Nat.testBit_and, Nat.zero_testBit, Nat.testBit_two_pow]
    by_cases hki : k = i
    · subst hki
      simp only [Bool.not_eq_true] at hb
      simp [hb]
    · simp [hki]
  · intro hb h
    have := congrArg (fun n => n.testBit k) h
    simp [Nat.testBit_two_pow_self, hb] at this

theorem testBit_0xFF0 (i : Nat) : (0xFF0 : Nat).testBit i = decide (4 ≤ i ∧ i ≤ 11) := by
  by_cases hi : i < 12
  · interval_cases i <;> rfl
  · have h1 : (0xFF0 : Nat) < 2 ^ i :=
      Nat.lt_of_lt_of_le (by norm_num) (Nat.pow_le_pow_right (by norm_num) (Nat.le_of_not_lt hi))
    rw [Nat.testBit_lt_two_pow h1]
    symm
    apply decide_eq_false
    omega

theorem and_0xFF0 (w : Nat) : w &&& 0xFF0 ≠ 0 ↔ ∃ k, 4 ≤ k ∧ k ≤ 11 ∧ w.testBit k = true := by
  constructor
  · intro h
    by_contra hno
    apply h
    apply Nat.eq_of_testBit_eq
    intro i
    rw [Nat.testBit_and, testBit_0xFF0, Nat.zero_testBit]
    by_cases hi : 4 ≤ i ∧ i ≤ 11
    · have : w.testBit i = false := by
        by_contra hb
        exact hno ⟨i, hi.1, hi.2, by simpa using hb⟩
      simp [this]
    · simp [hi]
  · rintro ⟨k, h4, h11, hb⟩ h
    have := congrArg (fun n => n.testBit k) h
    simp [testBit_0xFF0, hb, h4, h11] at this

theorem and_three (w : Nat) : w &&& 3 = w % 4 := Nat.and_pow_two_sub_one_eq_mod w 2

/-! ## The discharging status text -/

theorem decodeDischargingStatus_eq_reference (d : Nat) :
    decodeDischargingStatus d = dischargingReference d := by
  unfold decodeDischargingStatus dischargingReference dischargingFaultTexts
  simp only [and_bit d 1 2 rfl, and_bit d 0 1 rfl, and_bit d 4 16 rfl, and_bit d 5 32 rfl,
    and_bit d 6 64 rfl, and_bit d 7 128 rfl, and_bit d 8 256 rfl, and_bit d 9 512 rfl,
    and_bit d 10 1024 rfl, and_bit d 11 2048 rfl, List.find?]
  cases d.testBit 1 <;> cases d.testBit 0 <;> cases d.testBit 4 <;> cases d.testBit 5 <;>
    cases d.testBit 6 <;> cases d.testBit 7 <;> cases d.testBit 8 <;> cases d.testBit 9 <;>
    cases d.testBit 10 <;> cases d.testBit 11 <;> rfl

end EPEVER

namespace EPEVER

theorem fetchAddressStatusVariables_texts (P : Platform) (t : EPEVERSolarTracer)
    (h : (reply P t (.readInputRegisters 0x3200 3)).result = ku8MBSuccess) :
    (fetchAddressStatusVariables P t).batteryStatusText =
        decodeBatteryStatus P (getResponseBuffer (reply P t (.readInputRegisters 0x3200 3)) 0) ∧
      (fetchAddressStatusVariables P t).chargingStatusText =
        decodeChargingStatus t.chargingStatusText
          (getResponseBuffer (reply P t (.readInputRegisters 0x3200 3)) 1) ∧
      (fetchAddressStatusVariables P t).dischargingStatusText =
        decodeDischargingStatus
          (getResponseBuffer (reply P t (.readInputRegisters 0x3200 3)) 2) := by
  simp only [reply] at h ⊢
  simp only [fetchAddressStatusVariables, MODBUS_ADDRESS_BATTERY_STATUS, h, if_true, record,
    and_self]

/-- C18: the discharging status decoder is total and equals the reference for
every word `d`: with bit 1 clear the text is "Running" when bit 0 is set and
"Standby" otherwise; with bit 1 set it is the fault text of the lowest-numbered
set bit among bits 4 to 11 (OUT OVER VOLT., BOOST OVER VOLT, HV SIDE SHORT, INPUT
OVER VOLT., OUT VOLT. ABN, UNABLE STOP DISC., UNABLE DISC., SHORT), or "! ??" when
none of them is set; and a successful status read stores that text for word 2 of
block 0x3200. -/
theorem discharging_matches_reference (P : Platform) (t : EPEVERSolarTracer)
    (h : (reply P t (.readInputRegisters 0x3200 3)).result = ku8MBSuccess) :
    (fetchAddressStatusVariables P t).dischargingStatusText =
      dischargingReference (getResponseBuffer (reply P t (.readInputRegisters 0x3200 3)) 2) ∧
    (∀ d, decodeDischargingStatus d = dischargingReference d) := by
  refine ⟨?_, decodeDischargingStatus_eq_reference⟩
  rw [(fetchAddressStatusVariables_texts P t h).2.2, decodeDischargingStatus_eq_reference]

/-- C18, at a concrete input: discharging words 0, 1, 2 (bit 1 alone) and 0x0C2
(bits 1, 6, 7) give "Standby", "Running", "! ??" and "! HV SIDE SHORT". -/
theorem discharging_matches_reference_witness :
    (fetchAddressStatusVariables (listBus [0, 0, 0]) bootTracer).dischargingStatusText =
      "Standby" ∧
    (fetchAddressStatusVariables (listBus [0, 0, 1]) bootTracer).dischargingStatusText =
      "Running" ∧
    (fetchAddressStatusVariables (listBus [0, 0, 2]) bootTracer).dischargingStatusText =
      "! ??" ∧
    (fetchAddressStatusVariables (listBus [0, 0, 0x0C2]) bootTracer).dischargingStatusText =
      "! HV SIDE SHORT" :=
  ⟨((discharging_matches_reference (listBus [0, 0, 0]) bootTracer rfl).1).trans (by decide),
    ((discharging_matches_reference (listBus [0, 0, 1]) bootTracer rfl).1).trans (by decide),
    ((discharging_matches_reference (listBus [0, 0, 2]) bootTracer rfl).1).trans (by decide),
    ((discharging_matches_reference (listBus [0, 0, 0x0C2]) bootTracer rfl).1).trans
      (by decide)⟩

/-! ## The battery status text -/

theorem decodeBatteryStatus_over_volt (P : Platform) (w : Nat) (hw : w < 65536)
    (h : w % 4 = 1) :
    decodeBatteryStatus P w = "! OVER VOLT" ∨
      decodeBatteryStatus P w = "! OVER VOLT ABN BATT. RESIST." := by
  have hne : w ≠ 0 := by omega
  have h3 : w &&& 3 = 1 := by rw [and_three]; exact h
  have h16 : (w >>> 16) &&& 3 = 0 := by
    rw [Nat.shiftRight_eq_div_pow]
    have : w / 2 ^ 16 = 0 := by
      apply Nat.div_eq_of_lt
      norm_num
      exact hw
    rw [this]
    rfl
  unfold decodeBatteryStatus
  simp only [hne, ne_eq, not_false_eq_true, if_true, h3, h16]
  by_cases hs : P.shr32 w = 0
  · left
    simp only [hs, not_true_eq_false, if_false]
    rfl
  · right
    simp only [hs, not_false_eq_true, if_true]
    rfl

/-- C16: after a successful status read, the battery status text is exactly
"Normal" when the battery status word (word 0 of block 0x3200) is 0, and for
every battery status word whose low two bits are 01 it begins with "!", contains
"OVER VOLT" and contains neither "UNDER VOLT" nor "LOW VOLT". -/
theorem battery_status_text (P : Platform) (t : EPEVERSolarTracer)
    (h : (reply P t (.readInputRegisters 0x3200 3)).result = ku8MBSuccess) :
    (getResponseBuffer (reply P t (.readInputRegisters 0x3200 3)) 0 = 0 →
      (fetchAddressStatusVariables P t).batteryStatusText = "Normal") ∧
    (getResponseBuffer (reply P t (.readInputRegisters 0x3200 3)) 0 % 4 = 1 →
      beginsWith (fetchAddressStatusVariables P t).batteryStatusText "!" ∧
      containsText (fetchAddressStatusVariables P t).batteryStatusText "OVER VOLT" ∧
      ¬ containsText (fetchAddressStatusVariables P t).batteryStatusText "UNDER VOLT" ∧
      ¬ containsText (fetchAddressStatusVariables P t).batteryStatusText "LOW VOLT") := by
  rw [(fetchAddressStatusVariables_texts P t h).1]
  constructor
  · intro h0
    rw [h0]
    simp [decodeBatteryStatus]
  · intro h1
    rcases decodeBatteryStatus_over_volt P _ (getResponseBuffer_lt _ _) h1 with he | he <;>
      rw [he] <;> unfold beginsWith containsText <;> decide

/-- C16, at a concrete input: battery status words 0 and 5 (low bits 01). -/
theorem battery_status_text_witness :
    (fetchAddressStatusVariables (listBus [0, 0, 0]) bootTracer).batteryStatusText = "Normal" ∧
    containsText (fetchAddressStatusVariables (listBus [5, 0, 0]) bootTracer).batteryStatusText
      "OVER VOLT" :=
  ⟨(battery_status_text (listBus [0, 0, 0]) bootTracer rfl).1 rfl,
    ((battery_status_text (listBus [5, 0, 0]) bootTracer rfl).2 rfl).2.1⟩

end EPEVER

namespace EPEVER

/-! ## The charging status text -/

theorem decodeChargingStatus_fault (previous : String) (w : Nat) (hm : w &&& 0xFF0 ≠ 0) :
    ∃ p, chargingFaultTexts.find? (fun p => w.testBit p.1) = some p ∧
      decodeChargingStatus previous w = p.2 := by
  obtain ⟨k, h4, h11, hb⟩ := (and_0xFF0 w).1 hm
  unfold decodeChargingStatus chargingFaultTexts
  rw [if_pos hm]
  simp only [and_bit w 4 16 rfl, and_bit w 5 32 rfl, and_bit w 6 64 rfl,
    and_bit w 7 128 rfl, and_bit w 8 256 rfl, and_bit w 9 512 rfl, and_bit w 10 1024 rfl,
    and_bit w 11 2048 rfl, and_bit w 12 4096 rfl, and_bit w 13 8192 rfl, List.find?]
  cases e4 : w.testBit 4
  case true => exact ⟨_, rfl, rfl⟩
  cases e5 : w.testBit 5
  case true => exact ⟨_, rfl, rfl⟩
  cases e6 : w.testBit 6
  case true => exact ⟨_, rfl, rfl⟩
  cases e7 : w.testBit 7
  case true => exact ⟨_, rfl, rfl⟩
  cases e8 : w.testBit 8
  case true => exact ⟨_, rfl, rfl⟩
  cases e9 : w.testBit 9
  case true => exact ⟨_, rfl, rfl⟩
  cases e10 : w.testBit 10
  case true => exact ⟨_, rfl, rfl⟩
  cases e11 : w.testBit 11
  case true => exact ⟨_, rfl, rfl⟩
  exfalso
  interval_cases k <;> simp_all

theorem decodeChargingStatus_ne_fallback (previous : String) (w : Nat) :
    decodeChargingStatus previous w ≠ "! ??" := by
  by_cases hm : w &&& 0xFF0 ≠ 0
  · obtain ⟨p, hp, ht⟩ := decodeChargingStatus_fault previous w hm
    rw [ht]
    have hall : ∀ q ∈ chargingFaultTexts, q.2 ≠ "! ??" := by decide
    exact hall p (List.mem_of_find?_eq_some hp)
  · unfold decodeChargingStatus
    rw [if_neg hm]
    have hlt : w >>> 2 &&& 3 < 4 := by
      rw [and_three]
      omega
    generalize w >>> 2 &&& 3 = x at hlt ⊢
    interval_cases x <;> simp

/-- C17 (amended): no charging status word (word 1 of block 0x3200) makes a
successful `fetchAddressStatusVariables` set the charging status text to the
generic fallback "! ??"; every word classified as a fault
(`chargingStatus & 0xFF0` non-zero) has one of bits 4 to 11 set and gets the text
of the lowest-numbered such bit, bits 5 and 6, which the documentation does not
specify, giving "! ?? D5" and "! ?? D6". -/
theorem charging_fallback_unreachable (P : Platform) (t : EPEVERSolarTracer)
    (h : (reply P t (.readInputRegisters 0x3200 3)).result = ku8MBSuccess) :
    (fetchAddressStatusVariables P t).chargingStatusText ≠ "! ??" ∧
    (getResponseBuffer (reply P t (.readInputRegisters 0x3200 3)) 1 &&& 0xFF0 ≠ 0 →
      (∃ k, 4 ≤ k ∧ k ≤ 11 ∧
        (getResponseBuffer (reply P t (.readInputRegisters 0x3200 3)) 1).testBit k = true) ∧
      ∃ p, chargingFaultTexts.find?
          (fun p => (getResponseBuffer (reply P t (.readInputRegisters 0x3200 3)) 1).testBit
            p.1) = some p ∧
        (fetchAddressStatusVariables P t).chargingStatusText = p.2) := by
  rw [(fetchAddressStatusVariables_texts P t h).2.1]
  exact ⟨decodeChargingStatus_ne_fallback _ _,
    fun hm => ⟨(and_0xFF0 _).1 hm, decodeChargingStatus_fault _ _ hm⟩⟩

/-- C17, at a concrete input: the charging words 0x20 (bit 5) and 0x40 (bit 6)
give "! ?? D5" and "! ?? D6", not "! ??". -/
theorem charging_fallback_unreachable_witness :
    (fetchAddressStatusVariables (listBus [0, 0x20, 0]) bootTracer).chargingStatusText ≠
      "! ??" ∧
    (fetchAddressStatusVariables (listBus [0, 0x20, 0]) bootTracer).chargingStatusText =
      "! ?? D5" ∧
    (fetchAddressStatusVariables (listBus [0, 0x40, 0]) bootTracer).chargingStatusText =
      "! ?? D6" :=
  ⟨(charging_fallback_unreachable (listBus [0, 0x20, 0]) bootTracer rfl).1, by decide,
    by decide⟩

/-- C17 as stated fails: there is no 16-bit charging status word for which a
successful status read sets the charging status text to "! ??". -/
theorem no_charging_word_gives_fallback :
    ¬ ∃ w, w < 65536 ∧
      (fetchAddressStatusVariables (listBus [0, w, 0]) bootTracer).chargingStatusText =
        "! ??" := by
  rintro ⟨w, _, hw⟩
  rw [(fetchAddressStatusVariables_texts (listBus [0, w, 0]) bootTracer rfl).2.1] at hw
  exact decodeChargingStatus_ne_fallback _ _ hw

/-! ## The clock write -/

/-- C19: for every time `ti`, in range or not, `syncRealtimeClock` issues a single
write-multiple-registers transaction of exactly 3 words at 0x9013 and returns true
iff it succeeds; and when seconds and minutes are in 0..59, the hour in 0..23, the
day of month in 1..31, `tm_mon` in 0..11 and the calendar year (`tm_year + 1900`)
in 2000..2255, the words are `min * 256 + sec`, `day * 256 + hour` and
`(year - 2000) * 256 + (tm_mon + 1)`, so each of the six fields is the high or the
low byte of its word. -/
theorem clock_packing (P : Platform) (t : EPEVERSolarTracer) (ti : Tm) :
    ∃ w0 w1 w2 : Nat,
      issued t (syncRealtimeClock P t ti).2 =
        [.writeMultipleRegisters 0x9013 3 [w0, w1, w2]] ∧
      ((syncRealtimeClock P t ti).1 = true ↔
        (reply P t (.writeMultipleRegisters 0x9013 3 [w0, w1, w2])).result = ku8MBSuccess) ∧
      ((0 ≤ ti.tm_sec ∧ ti.tm_sec ≤ 59) ∧ (0 ≤ ti.tm_min ∧ ti.tm_min ≤ 59) ∧
        (0 ≤ ti.tm_hour ∧ ti.tm_hour ≤ 23) ∧ (1 ≤ ti.tm_mday ∧ ti.tm_mday ≤ 31) ∧
        (0 ≤ ti.tm_mon ∧ ti.tm_mon ≤ 11) ∧
        (2000 ≤ ti.tm_year + 1900 ∧ ti.tm_year + 1900 ≤ 2255) →
        (w0 : Int) = ti.tm_min * 256 + ti.tm_sec ∧
        (w1 : Int) = ti.tm_mday * 256 + ti.tm_hour ∧
        (w2 : Int) = (ti.tm_year + 1900 - 2000) * 256 + (ti.tm_mon + 1) ∧
        (w0 : Int) / 256 = ti.tm_min ∧ (w0 : Int) % 256 = ti.tm_sec ∧
        (w1 : Int) / 256 = ti.tm_mday ∧ (w1 : Int) % 256 = ti.tm_hour ∧
        (w2 : Int) / 256 = ti.tm_year + 1900 - 2000 ∧ (w2 : Int) % 256 = ti.tm_mon + 1) := by
  refine ⟨toUInt16 (ti.tm_min * 2 ^ 8 + ti.tm_sec), toUInt16 (ti.tm_mday * 2 ^ 8 + ti.tm_hour),
    toUInt16 ((ti.tm_year + 1900 - 2000) * 2 ^ 8 + ti.tm_mon + 1), ?_, ?_, ?_⟩
  · have hlog : (syncRealtimeClock P t ti).2.log = t.log ++
        [⟨.writeMultipleRegisters 0x9013 3
            [toUInt16 (ti.tm_min * 2 ^ 8 + ti.tm_sec),
              toUInt16 (ti.tm_mday * 2 ^ 8 + ti.tm_hour),
              toUInt16 ((ti.tm_year + 1900 - 2000) * 2 ^ 8 + ti.tm_mon + 1)],
          (P.bus t.log (.writeMultipleRegisters 0x9013 3
            [toUInt16 (ti.tm_min * 2 ^ 8 + ti.tm_sec),
              toUInt16 (ti.tm_mday * 2 ^ 8 + ti.tm_hour),
              toUInt16 ((ti.tm_year + 1900 - 2000) * 2 ^ 8 + ti.tm_mon + 1)])).result⟩] := by
      simp only [syncRealtimeClock, record, MODBUS_ADDRESS_REALTIME_CLOCK]
      split <;> rfl
    rw [issued_of_log hlog]
    rfl
  · simp only [syncRealtimeClock, reply, MODBUS_ADDRESS_REALTIME_CLOCK]
    split <;> simp_all
  · rintro ⟨⟨h1, h2⟩, ⟨h3, h4⟩, ⟨h5, h6⟩, ⟨h7, h8⟩, ⟨h9, h10⟩, ⟨h11, h12⟩⟩
    simp only [toUInt16]
    norm_num
    refine ⟨?_, ?_, ?_, ?_, ?_, ?_, ?_, ?_, ?_⟩ <;> omega

/-- C19, at concrete inputs. For 2024-03-17 21:45:30 on a bus that accepts every
request the one request issued is the write of `[11550, 4373, 6147]` at 0x9013 and
the call returns true; for an out-of-range time (`tm_sec = 60`, year 1970) there is
still exactly one 3-word write at 0x9013, and on a bus that answers nothing the
call returns false. -/
theorem clock_packing_witness :
    (issued bootTracer (syncRealtimeClock (goodBus 0) bootTracer sampleTime).2 =
        [.writeMultipleRegisters 0x9013 3 [11550, 4373, 6147]] ∧
      (syncRealtimeClock (goodBus 0) bootTracer sampleTime).1 = true) ∧
    (∃ w0 w1 w2 : Nat,
      issued bootTracer (syncRealtimeClock deadBus bootTracer
          ⟨60, 0, 0, 1, 0, 70⟩).2 = [.writeMultipleRegisters 0x9013 3 [w0, w1, w2]]) ∧
    (syncRealtimeClock deadBus bootTracer ⟨60, 0, 0, 1, 0, 70⟩).1 = false := by
  refine ⟨?_, ?_, rfl⟩
  · obtain ⟨w0, w1, w2, h1, h2, h3⟩ := clock_packing (goodBus 0) bootTracer sampleTime
    obtain ⟨h3, h4, h5, _⟩ := h3 (by decide)
    have e0 : w0 = 11550 := by
      have : (w0 : Int) = 11550 := by rw [h3]; rfl
      exact_mod_cast this
    have e1 : w1 = 4373 := by
      have : (w1 : Int) = 4373 := by rw [h4]; rfl
      exact_mod_cast this
    have e2 : w2 = 6147 := by
      have : (w2 : Int) = 6147 := by rw [h5]; rfl
      exact_mod_cast this
    subst e0 e1 e2
    exact ⟨h1, h2.2 rfl⟩
  · obtain ⟨w0, w1, w2, h1, _⟩ := clock_packing deadBus bootTracer ⟨60, 0, 0, 1, 0, 70⟩
    exact ⟨w0, w1, w2, h1⟩

end EPEVER

namespace EPEVER

/-! ## The return value of a tick -/

theorem updateRun_flag_needs_flag (P : Platform) (t : EPEVERSolarTracer)
    (h : ¬ (t.globalUpdateCounter ≠ 360 ∧ t.currentRealtimeUpdateCounter = 5))
    (hr : (updateRun P t).1 = true) : t.rs485readSuccess = true := by
  unfold updateRun at hr
  by_cases hg : t.globalUpdateCounter = 360
  · simpa [hg] using hr
  · simp only [hg, if_false] at hr
    have hc : t.currentRealtimeUpdateCounter ≠ 5 := fun hc => h ⟨hg, hc⟩
    unfold realtimeDispatch at hr
    split at hr <;> simp_all

/-- C24: on the load-manual-coil + status tick (`globalUpdateCounter ≠ 360` and
`currentRealtimeUpdateCounter = 5`) the tick has three exchanges, two reads of
coil 0x0002 and the read of block 0x3200, and `updateRun` returns true iff the
second coil read and the status read both succeeded, whatever the flag was before
and whatever the first coil read gave; on every other tick `updateRun` returns
true only if `rs485readSuccess` was true before the tick. -/
theorem coil_tick_return (P : Platform) (t : EPEVERSolarTracer) :
    (t.globalUpdateCounter ≠ 360 ∧ t.currentRealtimeUpdateCounter = 5 →
      ∃ e1 e2 e3, exchanges t (updateRun P t).2 = [e1, e2, e3] ∧
        e1.request = .readCoils 0x0002 1 ∧ e2.request = .readCoils 0x0002 1 ∧
        e3.request = .readInputRegisters 0x3200 3 ∧
        ((updateRun P t).1 = true ↔
          (e2.result = ku8MBSuccess ∧ e3.result = ku8MBSuccess))) ∧
    (¬ (t.globalUpdateCounter ≠ 360 ∧ t.currentRealtimeUpdateCounter = 5) →
      (updateRun P t).1 = true → t.rs485readSuccess = true) := by
  refine ⟨?_, updateRun_flag_needs_flag P t⟩
  rintro ⟨hg, hc⟩
  have hlog : (updateRun P t).2.log = t.log ++
      [⟨.readCoils 2 1, (P.bus t.log (.readCoils 2 1)).result⟩,
        ⟨.readCoils 2 1, (P.bus (t.log ++
          [⟨.readCoils 2 1, (P.bus t.log (.readCoils 2 1)).result⟩])
            (.readCoils 2 1)).result⟩,
        ⟨.readInputRegisters 0x3200 3, (P.bus (t.log ++
          [⟨.readCoils 2 1, (P.bus t.log (.readCoils 2 1)).result⟩,
            ⟨.readCoils 2 1, (P.bus (t.log ++
              [⟨.readCoils 2 1, (P.bus t.log (.readCoils 2 1)).result⟩])
                (.readCoils 2 1)).result⟩])
            (.readInputRegisters 0x3200 3)).result⟩] := by
    simp [updateRun, realtimeDispatch, hg, hc]
  refine ⟨_, _, _, exchanges_of_log hlog, rfl, rfl, rfl, ?_⟩
  simp [updateRun, realtimeDispatch, hg, hc]
  tauto

/-- C24, at a concrete input: from counters (0, 5) with the flag set, on a bus
whose first transaction fails and whose others succeed, the tick returns true;
and on a dead bus the first tick from the boot state, flag set, returns true only
because the flag was true. -/
theorem coil_tick_return_witness :
    (updateRun (firstFailsBus []) flaggedCoilTracer).1 = true ∧
    flaggedTracer.rs485readSuccess = true := by
  obtain ⟨e1, e2, e3, hex, _, _, _, hiff⟩ :=
    (coil_tick_return (firstFailsBus []) flaggedCoilTracer).1 ⟨by decide, rfl⟩
  have hconc : exchanges flaggedCoilTracer (updateRun (firstFailsBus []) flaggedCoilTracer).2 =
      [⟨.readCoils 2 1, 0xE2⟩, ⟨.readCoils 2 1, ku8MBSuccess⟩,
        ⟨.readInputRegisters 0x3200 3, ku8MBSuccess⟩] := by decide
  rw [hconc] at hex
  simp only [List.cons.injEq, and_true] at hex
  obtain ⟨_, h2, h3⟩ := hex
  refine ⟨hiff.2 ⟨?_, ?_⟩, ?_⟩
  · rw [← h2]
  · rw [← h3]
  · exact (coil_tick_return deadBus flaggedTracer).2 (by decide) rfl

end EPEVER

namespace EPEVER

/-! ## Charging fault bits 12 and 13 -/

/-- C21, evaluated on the code: charging status words with bit 12 or bit 13 set
and bits 4 to 11 clear (0x1000, 0x2000, 0x3004) pass the test
`chargingStatus & 0xFF0` as fault-free and get the mode texts "Stanby", "Stanby"
and "Float", none beginning with "!"; bit 11 (0x0800) gives its fault text. -/
theorem high_fault_bits_not_detected :
    (fetchAddressStatusVariables (listBus [0, 0x1000, 0]) bootTracer).chargingStatusText =
      "Stanby" ∧
    (fetchAddressStatusVariables (listBus [0, 0x2000, 0]) bootTracer).chargingStatusText =
      "Stanby" ∧
    (fetchAddressStatusVariables (listBus [0, 0x3004, 0]) bootTracer).chargingStatusText =
      "Float" ∧
    ¬ beginsWith
      (fetchAddressStatusVariables (listBus [0, 0x1000, 0]) bootTracer).chargingStatusText
      "!" ∧
    (0x1000 : Nat).testBit 12 = true ∧ (0x2000 : Nat).testBit 13 = true ∧
    (fetchAddressStatusVariables (listBus [0, 0x0800, 0]) bootTracer).chargingStatusText =
      "! ANTI REV. MOS. SHORT" := by
  refine ⟨by decide, by decide, by decide, ?_, by decide, by decide, by decide⟩
  unfold beginsWith
  decide

/-! ## The statistics block -/

/-- C25, evaluated on the code: the constant the code names
`MODBUS_ADDRESS_STAT_MAX_PV_VOLTAGE_TODAY` is the start address 0x3300, yet with
word 0 = 2000 and word 1 = 1000 read there `updateStats` stores 20 in
`stats_today_pv_volt_min` and 10 in `stats_today_pv_volt_max`: word 0 goes to the
minimum field. The energy constants lie 12, 14 and 16 words above the start. -/
theorem max_pv_word_stored_as_min :
    MODBUS_ADDRESS_STAT_MAX_PV_VOLTAGE_TODAY = 0x3300 ∧
    (updateStats (listBus [2000, 1000]) bootTracer).stats_today_pv_volt_min = 20 ∧
    (updateStats (listBus [2000, 1000]) bootTracer).stats_today_pv_volt_max = 10 ∧
    (updateStats (listBus [2000, 1000]) bootTracer).stats_today_pv_volt_max ≠ 2000 / 100 ∧
    MODBUS_ADDRESS_STAT_GENERATED_ENERGY_TODAY - MODBUS_ADDRESS_STAT_MAX_PV_VOLTAGE_TODAY = 12 ∧
    MODBUS_ADDRESS_STAT_GENERATED_ENERGY_MONTH - MODBUS_ADDRESS_STAT_MAX_PV_VOLTAGE_TODAY = 14 ∧
    MODBUS_ADDRESS_STAT_GENERATED_ENERGY_YEAR - MODBUS_ADDRESS_STAT_MAX_PV_VOLTAGE_TODAY = 16 := by
  have hmin : (updateStats (listBus [2000, 1000]) bootTracer).stats_today_pv_volt_min = 20 := by
    simp only [updateStats, listBus, constBus, if_true, scale100, getResponseBuffer]
    norm_num
  have hmax : (updateStats (listBus [2000, 1000]) bootTracer).stats_today_pv_volt_max = 10 := by
    simp only [updateStats, listBus, constBus, if_true, scale100, getResponseBuffer]
    norm_num
  refine ⟨rfl, hmin, hmax, ?_, by decide, by decide, by decide⟩
  rw [hmax]
  norm_num

end EPEVER

namespace EPEVER

/-! ## The battery status text, all words -/

theorem shiftRight_16_and_three (w : Nat) (hw : w < 65536) : (w >>> 16) &&& 3 = 0 := by
  rw [Nat.shiftRight_eq_div_pow]
  have : w / 2 ^ 16 = 0 := by
    apply Nat.div_eq_of_lt
    norm_num
    exact hw
  rw [this]
  rfl

theorem decodeBatteryStatus_nonzero (P : Platform) (w : Nat) (hw : w < 65536) (hne : w ≠ 0) :
    decodeBatteryStatus P w = batteryVoltText w ∨
      decodeBatteryStatus P w = batteryVoltText w ++ resistanceSuffix := by
  have h16 := shiftRight_16_and_three w hw
  have h3 := and_three w
  have hlt : w % 4 < 4 := Nat.mod_lt _ (by norm_num)
  unfold decodeBatteryStatus batteryVoltText resistanceSuffix
  simp only [hne, ne_eq, not_false_eq_true, if_true, h16, h3]
  generalize w % 4 = x at hlt ⊢
  by_cases hs : P.shr32 w = 0
  · left
    simp only [hs, not_true_eq_false, if_false]
    interval_cases x <;> rfl
  · right
    simp only [hs, not_false_eq_true, if_true]
    interval_cases x <;> rfl

theorem batteryVoltText_mem (w : Nat) : batteryVoltText w ∈ batteryFaultTexts := by
  have hlt : w % 4 < 4 := Nat.mod_lt _ (by norm_num)
  unfold batteryVoltText
  generalize w % 4 = x at hlt ⊢
  interval_cases x <;> decide

theorem batteryFaultTexts_clean :
    ∀ s ∈ batteryFaultTexts,
      (s ≠ "Normal" ∧ s ++ resistanceSuffix ≠ "Normal") ∧
      (¬ containsText s " OVER TEMP" ∧ ¬ containsText (s ++ resistanceSuffix) " OVER TEMP") ∧
      (¬ containsText s " LOW TEMP" ∧ ¬ containsText (s ++ resistanceSuffix) " LOW TEMP") ∧
      (¬ containsText s " FAULT" ∧ ¬ containsText (s ++ resistanceSuffix) " FAULT") := by
  unfold containsText
  decide

/-- C22: for every battery status word (word 0 of block 0x3200), the text a
successful status read produces is "Normal" when the word is 0 and otherwise one
of "!", "! OVER VOLT", "! UNDER VOLT", "! LOW VOLT" (selected by the low two
bits), possibly followed by the resistance suffix; it never contains
" OVER TEMP", " LOW TEMP" or " FAULT", and it is "Normal" iff the word is 0. -/
theorem battery_text_range (P : Platform) (t : EPEVERSolarTracer)
    (h : (reply P t (.readInputRegisters 0x3200 3)).result = ku8MBSuccess) :
    (getResponseBuffer (reply P t (.readInputRegisters 0x3200 3)) 0 ≠ 0 →
      batteryVoltText (getResponseBuffer (reply P t (.readInputRegisters 0x3200 3)) 0) ∈
          ["!", "! OVER VOLT", "! UNDER VOLT", "! LOW VOLT"] ∧
      ((fetchAddressStatusVariables P t).batteryStatusText =
          batteryVoltText (getResponseBuffer (reply P t (.readInputRegisters 0x3200 3)) 0) ∨
        (fetchAddressStatusVariables P t).batteryStatusText =
          batteryVoltText (getResponseBuffer (reply P t (.readInputRegisters 0x3200 3)) 0) ++
            " ABN BATT. RESIST.")) ∧
    ((fetchAddressStatusVariables P t).batteryStatusText = "Normal" ↔
      getResponseBuffer (reply P t (.readInputRegisters 0x3200 3)) 0 = 0) ∧
    ¬ containsText (fetchAddressStatusVariables P t).batteryStatusText " OVER TEMP" ∧
    ¬ containsText (fetchAddressStatusVariables P t).batteryStatusText " LOW TEMP" ∧
    ¬ containsText (fetchAddressStatusVariables P t).batteryStatusText " FAULT" := by
  rw [(fetchAddressStatusVariables_texts P t h).1]
  have hw := getResponseBuffer_lt (reply P t (.readInputRegisters 0x3200 3)) 0
  generalize getResponseBuffer (reply P t (.readInputRegisters 0x3200 3)) 0 = w at hw ⊢
  have hnormal : decodeBatteryStatus P 0 = "Normal" := by simp [decodeBatteryStatus]
  by_cases h0 : w = 0
  · subst h0
    rw [hnormal]
    refine ⟨fun hne => absurd rfl hne, ⟨fun _ => rfl, fun _ => rfl⟩, ?_, ?_, ?_⟩ <;>
      unfold containsText <;> decide
  · have hc := batteryFaultTexts_clean _ (batteryVoltText_mem w)
    have hd := decodeBatteryStatus_nonzero P w hw h0
    refine ⟨fun _ => ⟨batteryVoltText_mem w, hd⟩, ?_, ?_, ?_, ?_⟩
    · constructor
      · intro hn
        rcases hd with hd | hd
        · exact absurd (hd.symm.trans hn) hc.1.1
        · exact absurd (hd.symm.trans hn) hc.1.2
      · intro hz
        exact absurd hz h0
    · rcases hd with hd | hd <;> rw [hd]
      · exact hc.2.1.1
      · exact hc.2.1.2
    · rcases hd with hd | hd <;> rw [hd]
      · exact hc.2.2.1.1
      · exact hc.2.2.1.2
    · rcases hd with hd | hd <;> rw [hd]
      · exact hc.2.2.2.1
      · exact hc.2.2.2.2

/-- C22, at a concrete input: the battery status word 0xFFFF, every bit set, gives
"! LOW VOLT" and no temperature text. -/
theorem battery_text_range_witness :
    (fetchAddressStatusVariables (listBus [0xFFFF, 0, 0]) bootTracer).batteryStatusText =
      "! LOW VOLT" ∧
    ¬ containsText
      (fetchAddressStatusVariables (listBus [0xFFFF, 0, 0]) bootTracer).batteryStatusText
      " OVER TEMP" :=
  ⟨by decide, (battery_text_range (listBus [0xFFFF, 0, 0]) bootTracer rfl).2.2.1⟩

end EPEVER

namespace EPEVER

/-! ## The charging status text, all words -/

theorem mode_bits (w : Nat) :
    (w >>> 2) &&& 3 = (if w.testBit 2 = true then 1 else 0) +
      (if w.testBit 3 = true then 2 else 0) := by
  have h2 : w.testBit 2 = decide (w / 2 ^ 2 % 2 = 1) := Nat.testBit_to_div_mod
  have h3 : w.testBit 3 = decide (w / 2 ^ 3 % 2 = 1) := Nat.testBit_to_div_mod
  rw [and_three, Nat.shiftRight_eq_div_pow, h2, h3]
  norm_num
  split_ifs <;> omega

theorem decodeChargingStatus_mode (previous : String) (w : Nat) (hm : ¬ w &&& 0xFF0 ≠ 0) :
    decodeChargingStatus previous w = chargingModeText w := by
  unfold decodeChargingStatus chargingModeText
  rw [if_neg hm, mode_bits]
  cases w.testBit 2 <;> cases w.testBit 3 <;> rfl

theorem chargingFaultTexts_none (w : Nat) (hm : ¬ w &&& 0xFF0 ≠ 0) :
    chargingFaultTexts.find? (fun p => w.testBit p.1) = none := by
  have hno : ∀ k, 4 ≤ k → k ≤ 11 → w.testBit k = false := by
    intro k h4 h11
    by_contra hb
    exact hm ((and_0xFF0 w).2 ⟨k, h4, h11, by simpa using hb⟩)
  simp [chargingFaultTexts, List.find?, hno]

theorem decodeChargingStatus_eq_reference (previous : String) (w : Nat) :
    decodeChargingStatus previous w = chargingReference w := by
  unfold chargingReference
  by_cases hm : w &&& 0xFF0 ≠ 0
  · obtain ⟨p, hp, ht⟩ := decodeChargingStatus_fault previous w hm
    rw [hp, ht]
  · rw [chargingFaultTexts_none w hm, decodeChargingStatus_mode previous w hm]

theorem chargingReference_congr (u v : Nat)
    (h : ∀ k, 2 ≤ k → k ≤ 11 → u.testBit k = v.testBit k) :
    chargingReference u = chargingReference v := by
  unfold chargingReference chargingModeText chargingFaultTexts
  simp only [List.find?]
  rw [h 2 (by norm_num) (by norm_num), h 3 (by norm_num) (by norm_num),
    h 4 (by norm_num) (by norm_num), h 5 (by norm_num) (by norm_num),
    h 6 (by norm_num) (by norm_num), h 7 (by norm_num) (by norm_num),
    h 8 (by norm_num) (by norm_num), h 9 (by norm_num) (by norm_num),
    h 10 (by norm_num) (by norm_num), h 11 (by norm_num) (by norm_num)]

/-- C23: the charging status text depends only on bits 2 to 11 of the charging
status word (word 1 of block 0x3200): after a successful status read it is the
reference text, the fault text of the lowest-numbered set bit among bits 4 to 11
(PV INPUT SHORT, ?? D5, ?? D6, LOAD MOS. SHORT, LOAD SHORT, LOAD OVER CURR., INPUT
OVER CURR., ANTI REV. MOS. SHORT) when one is set, otherwise "Stanby", "Float",
"Boost" or "Equalisation" for the values 0, 1, 2, 3 of bits 3..2; and two words
that agree on bits 2 to 11 yield the same text. -/
theorem charging_text_by_bits (P : Platform) (t : EPEVERSolarTracer)
    (h : (reply P t (.readInputRegisters 0x3200 3)).result = ku8MBSuccess) :
    (fetchAddressStatusVariables P t).chargingStatusText =
      chargingReference (getResponseBuffer (reply P t (.readInputRegisters 0x3200 3)) 1) ∧
    (∀ (u v : Nat) (previous other : String),
      (∀ k, 2 ≤ k → k ≤ 11 → u.testBit k = v.testBit k) →
        decodeChargingStatus previous u = decodeChargingStatus other v) := by
  refine ⟨?_, ?_⟩
  · rw [(fetchAddressStatusVariables_texts P t h).2.1, decodeChargingStatus_eq_reference]
  · intro u v previous other hb
    rw [decodeChargingStatus_eq_reference, decodeChargingStatus_eq_reference,
      chargingReference_congr u v hb]

/-- C23, at a concrete input: the charging words 0x0008 (bits 3..2 = 2), 0x000C
(3), 0x0C0C (bits 10 and 11 set) and 0xF00B (the same bits 2 to 11 as 0x0008). -/
theorem charging_text_by_bits_witness :
    (fetchAddressStatusVariables (listBus [0, 0x0008, 0]) bootTracer).chargingStatusText =
      "Boost" ∧
    (fetchAddressStatusVariables (listBus [0, 0x000C, 0]) bootTracer).chargingStatusText =
      "Equalisation" ∧
    (fetchAddressStatusVariables (listBus [0, 0x0C0C, 0]) bootTracer).chargingStatusText =
      "! INPUT OVER CURR." ∧
    (fetchAddressStatusVariables (listBus [0, 0xF00B, 0]) bootTracer).chargingStatusText =
      "Boost" :=
  ⟨((charging_text_by_bits (listBus [0, 0x0008, 0]) bootTracer rfl).1).trans (by decide),
    ((charging_text_by_bits (listBus [0, 0x000C, 0]) bootTracer rfl).1).trans (by decide),
    ((charging_text_by_bits (listBus [0, 0x0C0C, 0]) bootTracer rfl).1).trans (by decide),
    ((charging_text_by_bits (listBus [0, 0xF00B, 0]) bootTracer rfl).1).trans (by decide)⟩

end EPEVER

namespace EPEVER

/-! ## Response words read by the decoders -/

theorem agreeBelow_listBus (t : EPEVERSolarTracer) (req : Request) (n : Nat)
    (words extra : List Nat) (hlen : words.length = n) :
    agreeBelow (listBus (words ++ extra)) (listBus words) t req n := by
  refine ⟨rfl, rfl, ?_⟩
  intro i hi
  simp only [listBus, constBus, getResponseBuffer]
  rw [List.getD_append _ _ _ _ (by omega)]

section bounds
variable (P Q : Platform) (t : EPEVERSolarTracer)

theorem AddressRegistry_3100_within (h : agreeBelow P Q t (.readInputRegisters 0x3100 6) 6) :
    AddressRegistry_3100 P t = AddressRegistry_3100 Q t := by
  obtain ⟨_, hr, hw⟩ := h
  simp only [AddressRegistry_3100, record, MODBUS_ADDRESS_PV_VOLTAGE, hr, hw 0 (by norm_num),
    hw 1 (by norm_num), hw 2 (by norm_num), hw 3 (by norm_num), hw 4 (by norm_num),
    hw 5 (by norm_num)]

theorem AddressRegistry_3106_within (h : agreeBelow P Q t (.readInputRegisters 0x3106 2) 2) :
    AddressRegistry_3106 P t = AddressRegistry_3106 Q t := by
  obtain ⟨_, hr, hw⟩ := h
  simp only [AddressRegistry_3106, record, hr, hw 0 (by norm_num), hw 1 (by norm_num)]

theorem AddressRegistry_310D_within (h : agreeBelow P Q t (.readInputRegisters 0x310D 3) 3) :
    AddressRegistry_310D P t = AddressRegistry_310D Q t := by
  obtain ⟨_, hr, hw⟩ := h
  simp only [AddressRegistry_310D, record, hr, hw 0 (by norm_num), hw 1 (by norm_num),
    hw 2 (by norm_num)]

theorem AddressRegistry_3110_within (h : agreeBelow P Q t (.readInputRegisters 0x3110 2) 2) :
    AddressRegistry_3110 P t = AddressRegistry_3110 Q t := by
  obtain ⟨_, hr, hw⟩ := h
  simp only [AddressRegistry_3110, record, MODBUS_ADDRESS_BATT_TEMP, hr, hw 0 (by norm_num),
    hw 1 (by norm_num)]

theorem AddressRegistry_311A_within (h : agreeBelow P Q t (.readInputRegisters 0x311A 2) 2) :
    AddressRegistry_311A P t = AddressRegistry_311A Q t := by
  obtain ⟨_, hr, hw⟩ := h
  simp only [AddressRegistry_311A, record, MODBUS_ADDRESS_BATT_SOC, hr, hw 0 (by norm_num),
    hw 1 (by norm_num)]

theorem AddressRegistry_331B_within (h : agreeBelow P Q t (.readInputRegisters 0x331B 2) 2) :
    AddressRegistry_331B P t = AddressRegistry_331B Q t := by
  obtain ⟨_, hr, hw⟩ := h
  simp only [AddressRegistry_331B, record, hr, hw 0 (by norm_num), hw 1 (by norm_num)]

theorem fetchAddressStatusVariables_within
    (h : agreeBelow P Q t (.readInputRegisters 0x3200 3) 3) :
    fetchAddressStatusVariables P t = fetchAddressStatusVariables Q t := by
  obtain ⟨hs, hr, hw⟩ := h
  simp only [fetchAddressStatusVariables, record, MODBUS_ADDRESS_BATTERY_STATUS,
    decodeBatteryStatus, hs, hr, hw 0 (by norm_num), hw 1 (by norm_num), hw 2 (by norm_num)]

theorem updateStats_within (h : agreeBelow P Q t (.readInputRegisters 0x3300 29) 20) :
    updateStats P t = updateStats Q t := by
  obtain ⟨_, hr, hw⟩ := h
  simp only [updateStats, record, MODBUS_ADDRESS_STAT_MAX_PV_VOLTAGE_TODAY, hr,
    hw 0 (by norm_num), hw 1 (by norm_num), hw 2 (by norm_num), hw 3 (by norm_num),
    hw 12 (by norm_num), hw 13 (by norm_num), hw 14 (by norm_num), hw 15 (by norm_num),
    hw 16 (by norm_num), hw 17 (by norm_num), hw 18 (by norm_num), hw 19 (by norm_num)]

end bounds

/-- C26: every response word a decoder reads lies inside the block it requested.
For each block read, two buses that return the same status and the same words
below the word count of the request (6 for 0x3100, 2 for 0x3106, 3 for 0x310D, 2
for 0x3110, 0x311A and 0x331B, 3 for 0x3200; below 20 of the 29 words for 0x3300)
leave the driver in the same state, so no word at or beyond the count is read;
and with the response a list of exactly the requested length, words appended past
its end change nothing. -/
theorem decoders_read_within_block (P Q : Platform) (t : EPEVERSolarTracer) :
    (agreeBelow P Q t (.readInputRegisters 0x3100 6) 6 →
      AddressRegistry_3100 P t = AddressRegistry_3100 Q t) ∧
    (agreeBelow P Q t (.readInputRegisters 0x3106 2) 2 →
      AddressRegistry_3106 P t = AddressRegistry_3106 Q t) ∧
    (agreeBelow P Q t (.readInputRegisters 0x310D 3) 3 →
      AddressRegistry_310D P t = AddressRegistry_310D Q t) ∧
    (agreeBelow P Q t (.readInputRegisters 0x3110 2) 2 →
      AddressRegistry_3110 P t = AddressRegistry_3110 Q t) ∧
    (agreeBelow P Q t (.readInputRegisters 0x311A 2) 2 →
      AddressRegistry_311A P t = AddressRegistry_311A Q t) ∧
    (agreeBelow P Q t (.readInputRegisters 0x331B 2) 2 →
      AddressRegistry_331B P t = AddressRegistry_331B Q t) ∧
    (agreeBelow P Q t (.readInputRegisters 0x3200 3) 3 →
      fetchAddressStatusVariables P t = fetchAddressStatusVariables Q t) ∧
    (agreeBelow P Q t (.readInputRegisters 0x3300 29) 20 →
      updateStats P t = updateStats Q t) ∧
    (∀ words extra : List Nat,
      (words.length = 6 →
        AddressRegistry_3100 (listBus (words ++ extra)) t =
          AddressRegistry_3100 (listBus words) t) ∧
      (words.length = 2 →
        AddressRegistry_3106 (listBus (words ++ extra)) t =
            AddressRegistry_3106 (listBus words) t ∧
          AddressRegistry_3110 (listBus (words ++ extra)) t =
            AddressRegistry_3110 (listBus words) t ∧
          AddressRegistry_311A (listBus (words ++ extra)) t =
            AddressRegistry_311A (listBus words) t ∧
          AddressRegistry_331B (listBus (words ++ extra)) t =
            AddressRegistry_331B (listBus words) t) ∧
      (words.length = 3 →
        AddressRegistry_310D (listBus (words ++ extra)) t =
            AddressRegistry_310D (listBus words) t ∧
          fetchAddressStatusVariables (listBus (words ++ extra)) t =
            fetchAddressStatusVariables (listBus words) t) ∧
      (words.length = 29 →
        updateStats (listBus (words ++ extra)) t = updateStats (listBus words) t)) := by
  refine ⟨AddressRegistry_3100_within P Q t, AddressRegistry_3106_within P Q t,
    AddressRegistry_310D_within P Q t, AddressRegistry_3110_within P Q t,
    AddressRegistry_311A_within P Q t, AddressRegistry_331B_within P Q t,
    fetchAddressStatusVariables_within P Q t, updateStats_within P Q t, ?_⟩
  intro words extra
  refine ⟨fun hl => ?_, fun hl => ⟨?_, ?_, ?_, ?_⟩, fun hl => ⟨?_, ?_⟩, fun hl => ?_⟩
  · exact AddressRegistry_3100_within _ _ t (agreeBelow_listBus t _ 6 words extra hl)
  · exact AddressRegistry_3106_within _ _ t (agreeBelow_listBus t _ 2 words extra hl)
  · exact AddressRegistry_3110_within _ _ t (agreeBelow_listBus t _ 2 words extra hl)
  · exact AddressRegistry_311A_within _ _ t (agreeBelow_listBus t _ 2 words extra hl)
  · exact AddressRegistry_331B_within _ _ t (agreeBelow_listBus t _ 2 words extra hl)
  · exact AddressRegistry_310D_within _ _ t (agreeBelow_listBus t _ 3 words extra hl)
  · exact fetchAddressStatusVariables_within _ _ t (agreeBelow_listBus t _ 3 words extra hl)
  · have ha := agreeBelow_listBus t (.readInputRegisters 0x3300 29) 29 words extra hl
    exact updateStats_within _ _ t ⟨ha.1, ha.2.1, fun i hi => ha.2.2 i (by omega)⟩

/-- C26, at a concrete input: the read of block 0x3100 gives the same driver for
the six words alone and for the six words followed by two more. -/
theorem decoders_read_within_block_witness :
    AddressRegistry_3100 (listBus ([1200, 150, 18000, 0, 1310, 140] ++ [9, 9])) bootTracer =
      AddressRegistry_3100 (listBus [1200, 150, 18000, 0, 1310, 140]) bootTracer :=
  ((decoders_read_within_block (listBus []) (listBus []) bootTracer).2.2.2.2.2.2.2.2
    [1200, 150, 18000, 0, 1310, 140] [9, 9]).1 rfl

end EPEVER
